import Mathlib

/-!
Verification of `src/commands/browser/open.ts` (the `vibe-tools browser open`
command): the two pure parsers `parseTimeDuration` and `parseWaitParameter`,
and a trace semantics for `OpenCommand.execute`, the generator that acquires a
browser session (connect or launch), navigates, applies the wait directive,
emits diagnostics/captures, and cleans up in its `finally` block.

Strings are handled at the level of their character lists (`String.data`);
JavaScript's `startsWith`, `slice`, `indexOf` are embedded as the corresponding
list operations.
-/

/-- Whether `p` is a prefix of `s`, on characters: embeds JavaScript `s.startsWith(p)`. -/
def startsWithS (p s : String) : Bool :=
  p.data.isPrefixOf s.data

/-- Value of a list of decimal digit characters, most significant first:
embeds `parseInt(value, 10)` applied to the digit string captured by the
regular expression group `(\d+)` in `parseTimeDuration`.  (JS numbers above
2^53 lose precision; the digit strings handled here are modelled exactly.) -/
def digitsToNat (l : List Char) : Nat :=
  l.foldl (fun a c => 10 * a + (c.toNat - 48)) 0

/-- Embeds `parseTimeDuration` (open.ts lines 17-35): match the whole string
against the regular expression `^(\d+)(ms|s|m)$` and scale the captured
integer by the unit.  Because neither unit begins with a digit, the greedy
`\d+` group is exactly the maximal digit prefix, so matching the regular
expression is splitting the string at the end of its digit prefix. -/
def parseTimeDuration (duration : String) : Option Nat :=
  let ds := duration.data.takeWhile Char.isDigit
  let rest := duration.data.dropWhile Char.isDigit
  if ds = [] then none
  else if rest = ['m', 's'] then some (digitsToNat ds)
  else if rest = ['s'] then some (digitsToNat ds * 1000)
  else if rest = ['m'] then some (digitsToNat ds * 60 * 1000)
  else none

/-- The parsed wait directive: `{ type: 'time' | 'selector'; value }` in the
source (`WaitDirective` in the specification's data model). -/
inductive WaitDirective
  | time (ms : Nat)
  | selector (sel : String)
  deriving DecidableEq, Repr

/-- Everything after the first `':'` of `s`, or `s` itself when it has no
colon: embeds `wait.includes(':') ? wait.slice(wait.indexOf(':') + 1) : wait`
(open.ts line 51). -/
def sliceAfterFirstColon (s : String) : String :=
  if ':' ∈ s.data then ((s.data.dropWhile (· ≠ ':')).drop 1).asString else s

/-- Embeds `parseWaitParameter` (open.ts lines 38-68).  A `time:` prefix hands
the remainder to `parseTimeDuration` and throws (here: `.error`) on failure; a
`selector:`/`css:` prefix keeps everything after the first colon; otherwise a
bare duration wins, and any other string falls through to a selector. -/
def parseWaitParameter (wait : String) : Except String WaitDirective :=
  if startsWithS "time:" wait then
    match parseTimeDuration ((wait.data.drop 5).asString) with
    | none =>
      .error ("Invalid time duration format: " ++ wait ++
        ". Expected format: time:Xs, time:Xms, or time:Xm")
    | some d => .ok (.time d)
  else if startsWithS "selector:" wait || startsWithS "css:" wait then
    .ok (.selector (sliceAfterFirstColon wait))
  else
    match parseTimeDuration wait with
    | some d => .ok (.time d)
    | none =>
      if startsWithS "#" wait || startsWithS "." wait then .ok (.selector wait)
      else .ok (.selector wait)

/-! ## The `OpenCommand.execute` trace model -/

/-- The request options consumed by `OpenCommand.execute`
(`OpenCommandOptions`; field list per the external-interface contract). -/
structure OpenCommandOptions where
  url : Option String := none
  connectTo : Option Nat := none
  headless : Option Bool := none
  viewport : Option String := none
  timeout : Option Nat := none
  wait : Option String := none
  html : Option Bool := none
  network : Option Bool := none
  console : Option Bool := none
  screenshot : Option String := none
  video : Bool := false
  debug : Bool := false
  deriving Repr

/-- The optional `browser` section of the loaded configuration
(`this.config.browser`). -/
structure BrowserConfig where
  headless : Option Bool := none
  defaultViewport : Option String := none
  timeout : Option Nat := none
  deriving Repr

/-- The external world the command runs against: for each awaited collaborator
call, either success or the thrown error's message, plus the data those
collaborators return (existing pages, diagnostics buffers, page HTML, the
video recorder's outputs, the loaded configuration). -/
structure World where
  preflightErr : Option String := none
  connectErr : Option String := none
  launchErr : Option String := none
  hasContext : Bool := true
  pageUrls : List String := []
  videoDir : String := ""
  gotoErr : Option String := none
  networkidleErr : Option String := none
  reloadErr : Option String := none
  selectorErr : Option String := none
  contentErr : Option String := none
  screenshotErr : Option String := none
  htmlContent : String := ""
  outputMsgs : List String := []
  videoMsg : Option String := none
  cfg : BrowserConfig := {}
  deriving Repr

/-- One observable step of the operation: a `yield` of the generator (the
progress sequence), a `console.log`, or a call into the automation engine /
capture components.  `closeContext` and `closePage` are the teardown calls the
command never makes on a connected browser's contexts and pages. -/
inductive Event
  | yield (msg : String)
  | consoleLog (msg : String)
  | connectCDP (port : Nat)
  | launch (headless : Bool)
  | newContext
  | newPage
  | setViewport (width height : Nat)
  | setupConsole
  | setupNetwork
  | goto (url : String) (timeout : Nat)
  | reload (timeout : Nat)
  | waitNetworkidle (timeout : Nat)
  | sleepTimer (ms : Nat)
  | timerRegistered
  | timersCleared
  | waitForSelector (sel : String) (timeout : Nat)
  | getContent
  | captureScreenshot
  | stopVideo (path : String)
  | closeBrowser
  | closeConnection
  | closeContext
  | closePage
  deriving DecidableEq, Repr

/-- The generator's progress sequence: the `yield`ed strings of a trace. -/
def emitted (t : List Event) : List String :=
  t.filterMap fun e => match e with | .yield m => some m | _ => none

/-- Size of the `timeouts` array (the `PendingTimerSet`) after a trace:
`timerRegistered` pushes a handle, `timersCleared` runs the
`clearTimeout` loop and `timeouts.length = 0`. -/
def pendingTimers (t : List Event) : Nat :=
  t.foldl (fun n e => match e with
    | .timerRegistered => n + 1
    | .timersCleared => 0
    | _ => n) 0

/-- JavaScript truthiness of an optional string (`undefined` and `""` are
falsy). -/
def strTruthy : Option String → Bool
  | none => false
  | some s => s ≠ ""

/-- The connect port when `options.connectTo` is truthy (`0` is falsy). -/
def connectPort (opts : OpenCommandOptions) : Option Nat :=
  match opts.connectTo with
  | some p => if p = 0 then none else some p
  | none => none

/-- JavaScript `Number()` applied to the pieces of a `WIDTHxHEIGHT` viewport string,
on the decimal-digit strings this command receives (`""` is `0`). -/
def jsNat (s : String) : Option Nat :=
  if s = "" then some 0 else s.toNat?

/-- The viewport parse `viewport.split('x').map(Number)` destructured into `[width, height]`,
`none` when either is `NaN`. -/
def viewportDims (s : String) : Option (Nat × Nat) :=
  match s.splitOn "x" with
  | w :: h :: _ =>
    match jsNat w, jsNat h with
    | some a, some b => some (a, b)
    | _, _ => none
  | _ => none

/-- The effective timeout `options.timeout ?? this.config.browser?.timeout ?? 30000`. -/
def effectiveTimeout (opts : OpenCommandOptions) (w : World) : Nat :=
  opts.timeout.getD (w.cfg.timeout.getD 30000)

/-- The default-filling pass on lines 102-107: `html` defaults to `false`,
`network` and `console` default to `true`. -/
def applyDefaults (opts : OpenCommandOptions) : OpenCommandOptions :=
  { opts with
    html := some (opts.html.getD false)
    network := some (opts.network.getD true)
    console := some (opts.console.getD true) }

/-- The live resources bound by `execute`: whether the `browser` handle was
assigned, the `page` handle (carrying its current address), and `videoPath`. -/
structure RunState where
  browser : Bool := false
  page : Option String := none
  videoPath : Option String := none
  deriving Repr

/-- Page selection on an attached context (lines 140-152): reuse the first
page whose address is not `chrome://`-internal, else the last page; only when
the context has no pages at all create a new one (a fresh page is at
`about:blank`). -/
def selectConnectPage (w : World) : List Event × String :=
  match (if w.hasContext then w.pageUrls else []) with
  | [] => ([Event.newPage], "about:blank")
  | p :: ps =>
    let chosen :=
      match (p :: ps).find? (fun u => !(startsWithS "chrome://" u)) with
      | some u => u
      | none => (p :: ps).getLast (List.cons_ne_nil p ps)
    ([Event.yield "Using existing page..."], chosen)

/-- The viewport step of the connect branch (lines 154-161): applied only if
explicitly requested, silently skipped when malformed. -/
def connectViewportEvents (opts : OpenCommandOptions) : List Event :=
  if strTruthy opts.viewport then
    match viewportDims (opts.viewport.getD "") with
    | some (a, b) => [Event.setViewport a b]
    | none => []
  else []

/-- The viewport step of the launch branch (lines 190-203): an explicit
request wins (malformed yields a message), else the configured default
viewport is applied when well-formed. -/
def launchViewportEvents (opts : OpenCommandOptions) (w : World) : List Event :=
  if strTruthy opts.viewport then
    match viewportDims (opts.viewport.getD "") with
    | some (a, b) => [Event.setViewport a b]
    | none =>
      [Event.yield ("Invalid viewport format: " ++ opts.viewport.getD "" ++
        ". Expected format: <width>x<height> (e.g. 1280x720)")]
  else if strTruthy w.cfg.defaultViewport then
    match viewportDims (w.cfg.defaultViewport.getD "") with
    | some (a, b) => [Event.setViewport a b]
    | none => []
  else []

/-- Modelled from the spec: `setupVideoRecording` (in `utilsShared`, outside
this file's source) "obtains a target directory/path for the recording" when
video capture was requested; otherwise no video path is set. -/
def setupVideoRecordingPath (opts : OpenCommandOptions) (w : World) : Option String :=
  if opts.video then some w.videoDir else none

/-- Session acquisition (lines 118-204): connect over CDP and reuse a context
and page, or launch an owned browser with a fresh context and page.  Returns
the events, the resources bound, and the thrown error if any. -/
def acquire (opts : OpenCommandOptions) (w : World) :
    List Event × RunState × Option String :=
  match connectPort opts with
  | some port =>
    let ev0 := [Event.yield ("Connecting to existing Chrome instance on port " ++
      toString port ++ "..."), Event.connectCDP port]
    match w.connectErr with
    | some e => (ev0, {}, some e)
    | none =>
      let ctxEv := if w.hasContext then [] else [Event.newContext]
      let (pageEv, pu) := selectConnectPage w
      (ev0 ++ ctxEv ++ pageEv ++ connectViewportEvents opts,
        { browser := true, page := some pu }, none)
  | none =>
    let headless := opts.headless.getD (w.cfg.headless.getD true)
    let ev0 := [Event.yield "Launching browser...", Event.launch headless]
    match w.launchErr with
    | some e => (ev0, {}, some e)
    | none =>
      let videoPath := setupVideoRecordingPath opts w
      let vlog := if opts.video then
        [Event.consoleLog ("video recording path: " ++ w.videoDir)] else []
      (ev0 ++ vlog ++ [Event.newContext, Event.newPage] ++ launchViewportEvents opts w,
        { browser := true, page := some "about:blank", videoPath := videoPath }, none)

/-- The monitoring setup (lines 206-215): a warning `console.log` when reusing
the current page of an attached instance, then the console and network
collectors are attached (they honour the `console`/`network` flags
internally). -/
def monitorEvents (url : String) (opts : OpenCommandOptions) : List Event :=
  (if url = "current" && (connectPort opts).isSome then
    [Event.consoleLog ("Setting up console and network monitoring. " ++
      "In some cases this can cause chrome to crash. " ++
      "Use --no-console and --no-network to disable.")]
  else []) ++ [Event.setupConsole, Event.setupNetwork]

/-- Navigation (lines 217-240): `current` and `reload-current` are
special-cased only when attached; any other `url` value is driven through
`page.goto` with `waitUntil: 'load'`, followed by a best-effort `networkidle`
wait whose timeout is reported and swallowed.  Returns events, the page's
resulting address, and the thrown error if any. -/
def navEvents (url : String) (opts : OpenCommandOptions) (w : World) (pu : String) :
    List Event × String × Option String :=
  let tmo := effectiveTimeout opts w
  if url = "current" && (connectPort opts).isSome then
    ([Event.yield ("Using current page at " ++ pu ++ "...")], pu, none)
  else if url = "reload-current" && (connectPort opts).isSome then
    let ev := [Event.yield ("Reloading current page at " ++ pu ++ "..."),
      Event.reload tmo]
    (ev, pu, w.reloadErr)
  else
    let ev0 := [Event.yield ("Navigating to " ++ url ++ "..."), Event.goto url tmo]
    match w.gotoErr with
    | some e => (ev0, pu, some e)
    | none =>
      let ev1 := ev0 ++ [Event.yield "Page loaded, waiting for networkidle...",
        Event.waitNetworkidle tmo]
      match w.networkidleErr with
      | some _ =>
        (ev1 ++ [Event.yield "Timed out waiting for networkidle, continuing with page as it is"],
          url, none)
      | none => (ev1, url, none)

/-- The wait step (lines 242-261): parse the wait string and either sleep the
requested milliseconds (the timer is awaited inline, never pushed into
`timeouts`) or wait for the selector to become visible; both a parse failure
and a selector failure are caught and reported as a `Wait error:` message. -/
def waitEvents (opts : OpenCommandOptions) (w : World) : List Event :=
  if strTruthy opts.wait then
    match parseWaitParameter (opts.wait.getD "") with
    | .error e => [Event.yield ("Wait error: " ++ e ++ "\n")]
    | .ok (.time ms) =>
      [Event.consoleLog ("Waiting for " ++ toString ms ++ "ms..."),
        Event.sleepTimer ms]
    | .ok (.selector sel) =>
      [Event.consoleLog ("Waiting for selector \"" ++ sel ++ "\"..."),
        Event.waitForSelector sel (effectiveTimeout opts w)] ++
      (match w.selectorErr with
        | some e => [Event.yield ("Wait error: " ++ e ++ "\n")]
        | none => [])
  else []

/-- The diagnostics output step (lines 269-272): the formatted console and
network buffers produced by the external `outputMessages`. -/
def diagEvents (w : World) : List Event :=
  w.outputMsgs.map Event.yield

/-- The HTML capture step (lines 274-280): only when `html` resolved to
`true`; a `page.content()` failure is thrown to the surrounding catch. -/
def htmlStep (opts : OpenCommandOptions) (w : World) : List Event × Option String :=
  if opts.html.getD false then
    match w.contentErr with
    | some e => ([Event.getContent], some e)
    | none =>
      ([Event.getContent, Event.yield "\n--- Page HTML Content ---\n\n",
        Event.yield w.htmlContent, Event.yield "\n--- End of HTML Content ---\n"], none)
  else ([], none)

/-- The screenshot step (lines 282-287): `captureScreenshot` always runs; the
confirmation is yielded only when a screenshot path was requested. -/
def screenshotStep (opts : OpenCommandOptions) (w : World) : List Event × Option String :=
  match w.screenshotErr with
  | some e => ([Event.captureScreenshot], some e)
  | none =>
    ([Event.captureScreenshot] ++
      (if strTruthy opts.screenshot then
        [Event.yield ("Screenshot saved to " ++ opts.screenshot.getD "" ++ "\n")]
      else []), none)

/-- Everything after acquisition inside the inner `try` (lines 206-287):
monitoring, navigation, the wait step, clearing `timeouts`, diagnostics, HTML
and screenshot capture.  Returns events, the page's final address, and the
first uncaught error. -/
def afterAcquire (url : String) (opts : OpenCommandOptions) (w : World) (pu : String) :
    List Event × String × Option String :=
  let pre := monitorEvents url opts
  match navEvents url opts w pu with
  | (ev, pu2, some e) => (pre ++ ev, pu2, some e)
  | (ev, pu2, none) =>
    let wv := waitEvents opts w
    let dg := Event.timersCleared :: diagEvents w
    match htmlStep opts w with
    | (hev, some e) => (pre ++ ev ++ wv ++ dg ++ hev, pu2, some e)
    | (hev, none) =>
      let (sev, r) := screenshotStep opts w
      (pre ++ ev ++ wv ++ dg ++ hev ++ sev, pu2, r)

/-- The inner `try` body (lines 117-287): acquisition followed, when it
succeeded, by the rest of the operation on the acquired page. -/
def innerRun (url : String) (opts : OpenCommandOptions) (w : World) :
    List Event × RunState × Option String :=
  match acquire opts w with
  | (ev, st, some e) => (ev, st, some e)
  | (ev, st, none) =>
    match st.page with
    | none => (ev, st, none)
    | some pu =>
      let (ev2, pu2, r) := afterAcquire url opts w pu
      (ev ++ ev2, { st with page := some pu2 }, r)

/-- The `finally` block (lines 295-314): clear `timeouts`, finalize the video
recording while the page handle is still bound, then close the launched
browser (announcing it) — or, when attached, close only the CDP connection
handle. -/
def finallyEvents (opts : OpenCommandOptions) (st : RunState) (w : World) : List Event :=
  [Event.timersCleared] ++
  (match st.videoPath, st.page with
    | some vp, some _ =>
      Event.stopVideo vp ::
        (match w.videoMsg with | some m => [Event.yield m] | none => [])
    | _, _ => []) ++
  (if st.browser && (connectPort opts).isNone then
    [Event.closeBrowser, Event.yield "Browser closed.\n"]
  else if (connectPort opts).isSome then
    (if st.browser then [Event.closeConnection] else [])
  else [])

/-- The whole generator `OpenCommand.execute` (lines 73-318) as a trace plus
final resource state: the preflight guard, the url/query fallback and the
usage message, the connect+video validation (thrown before the inner `try`,
so it surfaces through the outer catch), then the inner
`try`/`catch`/`finally` around acquisition, navigation and capture. -/
def OpenCommand.executeFull (query : String) (opts0 : OpenCommandOptions) (w : World) :
    List Event × RunState :=
  match w.preflightErr with
  | some e => ([Event.yield ("Playwright check error: " ++ e)], {})
  | none =>
    let opts1 := if !strTruthy opts0.url && query ≠ "" then
      { opts0 with url := some query } else opts0
    if !strTruthy opts1.url then
      ([Event.yield "Please provide a URL to open. Usage: vibe-tools browser open <url> [options]"], {})
    else
      let url := opts1.url.getD ""
      if (connectPort opts1).isSome && opts1.video then
        ([Event.yield ("Playwright check error: " ++
          "Cannot use --video when connecting to an existing Chrome instance (--connect-to). " ++
          "Video recording is only available when launching a new browser instance.")], {})
      else
        let opts := applyDefaults opts1
        let (ev, st, err) := innerRun url opts w
        let evc := match err with
          | some e => ev ++ [Event.timersCleared,
            Event.yield ("Browser command error: " ++ e)]
          | none => ev
        (evc ++ finallyEvents opts st w, st)

/-- The emitted trace of `OpenCommand.execute`. -/
def OpenCommand.execute (query : String) (opts : OpenCommandOptions) (w : World) :
    List Event :=
  (OpenCommand.executeFull query opts w).1

/-- The spec's duration shape, in its words: a non-empty run of decimal digit
characters followed by one of the units `ms`, `s`, `m`. -/
def durationPattern (s : String) : Prop :=
  ∃ ds u, s.data = ds ++ u ∧ ds ≠ [] ∧ (∀ c ∈ ds, c.isDigit = true) ∧
    (u = ['m', 's'] ∨ u = ['s'] ∨ u = ['m'])

/-- Acquisition succeeds: the engine call of whichever mode is selected does
not throw. -/
def acquireOk (opts : OpenCommandOptions) (w : World) : Prop :=
  match connectPort opts with
  | some _ => w.connectErr = none
  | none => w.launchErr = none

/-! ## Decimal-rendering lemmas (for the Duration Parser) -/

theorem digitChar_isDigit {k : Nat} (h : k < 10) : (Nat.digitChar k).isDigit = true := by
  interval_cases k <;> decide

theorem digitChar_val {k : Nat} (h : k < 10) : (Nat.digitChar k).toNat - 48 = k := by
  interval_cases k <;> decide

theorem toDigitsCore_eq_append (fuel : Nat) :
    ∀ (n : Nat) (acc : List Char),
      Nat.toDigitsCore 10 fuel n acc = Nat.toDigitsCore 10 fuel n [] ++ acc := by
  induction fuel with
  | zero => intro n acc; simp [Nat.toDigitsCore]
  | succ fuel ih =>
    intro n acc
    simp only [Nat.toDigitsCore]
    by_cases h : n / 10 = 0
    · simp [h]
    · simp only [h, if_false]
      rw [ih (n / 10) (Nat.digitChar (n % 10) :: acc),
        ih (n / 10) [Nat.digitChar (n % 10)], List.append_assoc]
      rfl

theorem digitsToNat_concat (l : List Char) (c : Char) :
    digitsToNat (l ++ [c]) = 10 * digitsToNat l + (c.toNat - 48) := by
  simp [digitsToNat, List.foldl_append]

theorem toDigitsCore_val (fuel : Nat) :
    ∀ n : Nat, n < 10 ^ fuel → digitsToNat (Nat.toDigitsCore 10 fuel n []) = n := by
  induction fuel with
  | zero => intro n h; interval_cases n; simp [Nat.toDigitsCore, digitsToNat]
  | succ fuel ih =>
    intro n h
    simp only [Nat.toDigitsCore]
    by_cases h0 : n / 10 = 0
    · have hn : n < 10 := by omega
      simp [h0, digitsToNat, digitChar_val (Nat.mod_lt n (by norm_num) : n % 10 < 10)]
      omega
    · simp only [h0, if_false]
      rw [toDigitsCore_eq_append, digitsToNat_concat,
        ih (n / 10) (by
          have h2 : n < 10 * 10 ^ fuel := by
            simpa [pow_succ, Nat.mul_comm] using h
          exact Nat.div_lt_of_lt_mul h2),
        digitChar_val (Nat.mod_lt n (by norm_num) : n % 10 < 10)]
      omega

theorem toDigitsCore_all_digits (fuel : Nat) :
    ∀ (n : Nat) (acc : List Char), (∀ c ∈ acc, c.isDigit = true) →
      ∀ c ∈ Nat.toDigitsCore 10 fuel n acc, c.isDigit = true := by
  induction fuel with
  | zero => intro n acc hacc; simpa [Nat.toDigitsCore] using hacc
  | succ fuel ih =>
    intro n acc hacc
    simp only [Nat.toDigitsCore]
    have hd : ∀ c ∈ Nat.digitChar (n % 10) :: acc, c.isDigit = true := by
      intro c hc
      rcases List.mem_cons.mp hc with h | h
      · subst h; exact digitChar_isDigit (Nat.mod_lt n (by norm_num))
      · exact hacc c h
    by_cases h0 : n / 10 = 0
    · simpa [h0] using hd
    · simp only [h0, if_false]
      exact ih (n / 10) _ hd

theorem toDigits_ne_nil (n : Nat) : Nat.toDigits 10 n ≠ [] := by
  simp only [Nat.toDigits, Nat.toDigitsCore]
  by_cases h0 : n / 10 = 0
  · simp [h0]
  · simp only [h0, if_false]
    rw [toDigitsCore_eq_append]
    simp

theorem repr_data (n : Nat) : (toString n).data = Nat.toDigits 10 n := rfl

theorem repr_all_digits (n : Nat) : ∀ c ∈ (toString n).data, c.isDigit = true := by
  rw [repr_data]
  exact toDigitsCore_all_digits (n + 1) n [] (by simp)

theorem repr_val (n : Nat) : digitsToNat (toString n).data = n := by
  rw [repr_data]
  refine toDigitsCore_val (n + 1) n ?_
  have h1 : n < 2 ^ (n + 1) :=
    lt_of_lt_of_le (Nat.lt_two_pow n) (Nat.pow_le_pow_right (by norm_num) (by omega))
  exact lt_of_lt_of_le h1 (Nat.pow_le_pow_left (by norm_num) _)

theorem data_ms : ("ms" : String).data = ['m', 's'] := rfl

theorem data_s : ("s" : String).data = ['s'] := rfl

theorem data_m : ("m" : String).data = ['m'] := rfl

/-- C9: the Duration Parser maps `<n>ms`, `<n>s`, `<n>m` to `n`, `n*1000`,
`n*60000` milliseconds, and returns no match (`none`), rather than an error,
exactly on the strings that are not a non-empty digit run followed by one of
the three units — negative numbers, missing units and extra characters
included. -/
theorem parseTimeDuration_spec :
    (∀ n : Nat,
      parseTimeDuration (toString n ++ "ms") = some n ∧
      parseTimeDuration (toString n ++ "s") = some (n * 1000) ∧
      parseTimeDuration (toString n ++ "m") = some (n * 60000)) ∧
    (∀ s : String, parseTimeDuration s = none ↔ ¬ durationPattern s) := by
  have hne : ∀ n : Nat, (toString n).data ≠ [] := by
    intro n; rw [repr_data]; exact toDigits_ne_nil n
  constructor
  · intro n
    refine ⟨?_, ?_, ?_⟩
    · simp only [parseTimeDuration, String.data_append, data_ms,
        List.takeWhile_append_of_pos (repr_all_digits n),
        List.dropWhile_append_of_pos (repr_all_digits n)]
      simp [hne n, repr_val n, List.takeWhile, List.dropWhile]
    · simp only [parseTimeDuration, String.data_append, data_s,
        List.takeWhile_append_of_pos (repr_all_digits n),
        List.dropWhile_append_of_pos (repr_all_digits n)]
      simp [hne n, repr_val n, List.takeWhile, List.dropWhile]
    · simp only [parseTimeDuration, String.data_append, data_m,
        List.takeWhile_append_of_pos (repr_all_digits n),
        List.dropWhile_append_of_pos (repr_all_digits n)]
      simp [hne n, repr_val n, List.takeWhile, List.dropWhile]
      ring
  · intro s
    constructor
    · intro hnone hpat
      rcases hpat with ⟨ds, u, hdata, hdne, hdig, hu⟩
      have hsplit : s.data.takeWhile Char.isDigit = ds ∧
          s.data.dropWhile Char.isDigit = u := by
        rcases hu with h | h | h <;> subst h <;>
          constructor <;>
          simp [hdata, List.takeWhile_append_of_pos hdig,
            List.dropWhile_append_of_pos hdig, List.takeWhile, List.dropWhile]
      rcases hu with h | h | h <;> subst h <;>
        simp [parseTimeDuration, hsplit.1, hsplit.2, hdne] at hnone
    · intro hpat
      by_contra hne2
      apply hpat
      have hds : s.data.takeWhile Char.isDigit ≠ [] := by
        intro h0
        simp [parseTimeDuration, h0] at hne2
      refine ⟨s.data.takeWhile Char.isDigit, s.data.dropWhile Char.isDigit,
        (List.takeWhile_append_dropWhile Char.isDigit s.data).symm, hds,
        fun c hc => List.mem_takeWhile_imp hc, ?_⟩
      by_cases h1 : s.data.dropWhile Char.isDigit = ['m', 's']
      · exact .inl h1
      by_cases h2 : s.data.dropWhile Char.isDigit = ['s']
      · exact .inr (.inl h2)
      by_cases h3 : s.data.dropWhile Char.isDigit = ['m']
      · exact .inr (.inr h3)
      exfalso
      apply hne2
      simp [parseTimeDuration, hds, h1, h2, h3]

/-- Closed instances of `parseTimeDuration_spec`: the scaling at `n = 250`,
and no-match on a sample malformed string derived through the
characterization. -/
theorem parseTimeDuration_spec_witness :
    parseTimeDuration "250ms" = some 250 ∧
    parseTimeDuration "250s" = some 250000 ∧
    parseTimeDuration "250m" = some 15000000 ∧
    ¬ durationPattern "-3s" :=
  ⟨(parseTimeDuration_spec.1 250).1,
    (parseTimeDuration_spec.1 250).2.1,
    (parseTimeDuration_spec.1 250).2.2,
    (parseTimeDuration_spec.2 "-3s").mp rfl⟩

/-! ## Wait-Directive Parser lemmas -/

theorem asString_data (s : String) : s.data.asString = s := rfl

theorem startsWithS_self_append (p t : String) : startsWithS p (p ++ t) = true := by
  simp [startsWithS, String.data_append, List.isPrefixOf_iff_prefix]

theorem isPrefixOf_false_of_ne_head (a b : Char) (as bs : List Char) (h : ¬ a = b) :
    (a :: as).isPrefixOf (b :: bs) = false := by
  simp [List.isPrefixOf_cons₂, h]

/-- C4: the Wait-Directive Parser's priority order.  A `time:` prefix defers
to the Duration Parser and is the only failure source (with the error naming
the string and the three accepted shapes); `selector:`/`css:` keep the
substring after the first colon verbatim; a bare duration becomes a time
directive; every other string — `#`/`.`-initial or not — becomes a selector
directive holding the string itself, so nothing else is rejected. -/
theorem parseWaitParameter_spec :
    (∀ s : String, parseWaitParameter ("time:" ++ s) =
      match parseTimeDuration s with
      | some d => Except.ok (.time d)
      | none => Except.error ("Invalid time duration format: " ++ ("time:" ++ s) ++
          ". Expected format: time:Xs, time:Xms, or time:Xm")) ∧
    (∀ r : String, parseWaitParameter ("selector:" ++ r) = Except.ok (.selector r)) ∧
    (∀ r : String, parseWaitParameter ("css:" ++ r) = Except.ok (.selector r)) ∧
    (∀ s : String, startsWithS "time:" s = false → startsWithS "selector:" s = false →
      startsWithS "css:" s = false →
      parseWaitParameter s =
        match parseTimeDuration s with
        | some d => Except.ok (.time d)
        | none => Except.ok (.selector s)) ∧
    (∀ s : String, startsWithS "time:" s = false →
      ∃ d, parseWaitParameter s = Except.ok d) := by
  refine ⟨?_, ?_, ?_, ?_, ?_⟩
  · intro s
    have hdrop : (("time:" ++ s).data.drop 5).asString = s := by
      simp [String.data_append, asString_data, List.drop]
    have hpd : parseTimeDuration (("time:" ++ s).data.drop 5).asString =
        parseTimeDuration s := by rw [hdrop]
    simp only [parseWaitParameter, startsWithS_self_append, if_true, hpd]
    cases parseTimeDuration s <;> simp
  · intro r
    have h1 : startsWithS "time:" ("selector:" ++ r) = false := by
      simp only [startsWithS, String.data_append]
      exact isPrefixOf_false_of_ne_head 't' 's' _ _ (by decide)
    simp only [parseWaitParameter, h1, Bool.false_eq_true, if_false,
      startsWithS_self_append, Bool.true_or, if_true]
    simp [sliceAfterFirstColon, String.data_append, List.dropWhile, asString_data]
  · intro r
    have h1 : startsWithS "time:" ("css:" ++ r) = false := by
      simp only [startsWithS, String.data_append]
      exact isPrefixOf_false_of_ne_head 't' 'c' _ _ (by decide)
    have h2 : startsWithS "selector:" ("css:" ++ r) = false := by
      simp only [startsWithS, String.data_append]
      exact isPrefixOf_false_of_ne_head 's' 'c' _ _ (by decide)
    simp only [parseWaitParameter, h1, Bool.false_eq_true, if_false, h2,
      startsWithS_self_append, Bool.false_or, if_true]
    simp [sliceAfterFirstColon, String.data_append, List.dropWhile, asString_data]
  · intro s h1 h2 h3
    simp only [parseWaitParameter, h1, h2, h3, Bool.false_eq_true, if_false,
      Bool.or_self, Bool.false_or]
    cases parseTimeDuration s <;> simp
  · intro s h1
    by_cases h2 : (startsWithS "selector:" s || startsWithS "css:" s) = true
    · simp only [parseWaitParameter, h1, Bool.false_eq_true, if_false, h2, if_true]
      exact ⟨_, rfl⟩
    · simp only [parseWaitParameter, h1, Bool.false_eq_true, if_false, h2, if_false]
      cases parseTimeDuration s <;> simp

/-- Closed instances of `parseWaitParameter_spec` at concrete strings of each
shape. -/
theorem parseWaitParameter_spec_witness :
    parseWaitParameter ("time:" ++ "2s") = Except.ok (.time 2000) ∧
    parseWaitParameter ("selector:" ++ "#a:b") = Except.ok (.selector "#a:b") ∧
    parseWaitParameter ("css:" ++ ".cls") = Except.ok (.selector ".cls") ∧
    parseWaitParameter "whatever" = Except.ok (.selector "whatever") := by
  refine ⟨?_, parseWaitParameter_spec.2.1 "#a:b", parseWaitParameter_spec.2.2.1 ".cls", ?_⟩
  · rw [parseWaitParameter_spec.1 "2s"]
    rfl
  · rw [parseWaitParameter_spec.2.2.2.1 "whatever" (by decide) (by decide) (by decide)]
    rfl
/-! ## Reduction lemmas for the trace model -/

theorem applyDefaults_url (o : OpenCommandOptions) : (applyDefaults o).url = o.url := rfl

theorem applyDefaults_connectTo (o : OpenCommandOptions) :
    (applyDefaults o).connectTo = o.connectTo := rfl

theorem connectPort_applyDefaults (o : OpenCommandOptions) :
    connectPort (applyDefaults o) = connectPort o := rfl

theorem applyDefaults_video (o : OpenCommandOptions) : (applyDefaults o).video = o.video := rfl

theorem applyDefaults_wait (o : OpenCommandOptions) : (applyDefaults o).wait = o.wait := rfl

theorem applyDefaults_html (o : OpenCommandOptions) :
    (applyDefaults o).html = some (o.html.getD false) := rfl

theorem applyDefaults_screenshot (o : OpenCommandOptions) :
    (applyDefaults o).screenshot = o.screenshot := rfl

theorem effectiveTimeout_applyDefaults (o : OpenCommandOptions) (w : World) :
    effectiveTimeout (applyDefaults o) w = effectiveTimeout o w := rfl

theorem strTruthy_some {s : String} : strTruthy (some s) = true ↔ s ≠ "" := by
  simp [strTruthy]

/-- Reduction of `executeFull` on a run that passes the preflight, usage and validation
gates, written with the inner body exposed. -/
theorem executeFull_run (query : String) (opts : OpenCommandOptions) (w : World) (u : String)
    (hpf : w.preflightErr = none) (hu : opts.url = some u) (hne : u ≠ "")
    (hval : ((connectPort opts).isSome && opts.video) = false) :
    OpenCommand.executeFull query opts w =
      ((match (innerRun u (applyDefaults opts) w).2.2 with
        | some e => (innerRun u (applyDefaults opts) w).1 ++
            [Event.timersCleared, Event.yield ("Browser command error: " ++ e)]
        | none => (innerRun u (applyDefaults opts) w).1) ++
        finallyEvents (applyDefaults opts) (innerRun u (applyDefaults opts) w).2.1 w,
        (innerRun u (applyDefaults opts) w).2.1) := by
  have htr : strTruthy (some u) = true := strTruthy_some.mpr hne
  simp only [OpenCommand.executeFull, hpf, hu, htr, Bool.not_true, Bool.false_and,
    Bool.false_eq_true, if_false, hval, Option.getD_some]

/-- Reduction of `acquire` in launch mode when the engine launch succeeds. -/
theorem acquire_launch (opts : OpenCommandOptions) (w : World)
    (hc : connectPort opts = none) (hl : w.launchErr = none) :
    acquire opts w =
      ([Event.yield "Launching browser...",
        Event.launch (opts.headless.getD (w.cfg.headless.getD true))] ++
        (if opts.video then [Event.consoleLog ("video recording path: " ++ w.videoDir)]
          else []) ++
        [Event.newContext, Event.newPage] ++ launchViewportEvents opts w,
        { browser := true, page := some "about:blank",
          videoPath := setupVideoRecordingPath opts w }, none) := by
  simp [acquire, hc, hl]

/-- Reduction of `acquire` in connect mode when the CDP connection succeeds. -/
theorem acquire_connect (opts : OpenCommandOptions) (w : World) (port : Nat)
    (hc : connectPort opts = some port) (hcn : w.connectErr = none) :
    acquire opts w =
      ([Event.yield ("Connecting to existing Chrome instance on port " ++
          toString port ++ "..."), Event.connectCDP port] ++
        (if w.hasContext then [] else [Event.newContext]) ++
        (selectConnectPage w).1 ++ connectViewportEvents opts,
        { browser := true, page := some (selectConnectPage w).2 }, none) := by
  simp [acquire, hc, hcn]

/-- Reduction of `innerRun` when acquisition succeeded with page `pu`. -/
theorem innerRun_acquired (url : String) (opts : OpenCommandOptions) (w : World)
    (aev : List Event) (st : RunState) (pu : String)
    (ha : acquire opts w = (aev, st, none)) (hp : st.page = some pu) :
    innerRun url opts w =
      (aev ++ (afterAcquire url opts w pu).1,
        { st with page := some (afterAcquire url opts w pu).2.1 },
        (afterAcquire url opts w pu).2.2) := by
  simp [innerRun, ha, hp]

theorem emitted_append (a b : List Event) : emitted (a ++ b) = emitted a ++ emitted b := by
  simp [emitted]

/-- C6: requesting connect mode together with video capture fails validation
before any session acquisition or navigation: the whole emitted sequence is
the single validation error message (surfaced through the outer guard), so no
connect, launch, navigation, diagnostics or capture event occurs. -/
theorem connect_video_rejected (query : String) (opts : OpenCommandOptions) (w : World)
    (u : String)
    (hpf : w.preflightErr = none) (hu : opts.url = some u) (hne : u ≠ "")
    (hcv : (connectPort opts).isSome = true) (hv : opts.video = true) :
    OpenCommand.execute query opts w =
      [Event.yield ("Playwright check error: " ++
        "Cannot use --video when connecting to an existing Chrome instance (--connect-to). " ++
        "Video recording is only available when launching a new browser instance.")] := by
  have htr : strTruthy (some u) = true := strTruthy_some.mpr hne
  simp only [OpenCommand.execute, OpenCommand.executeFull, hpf, hu, htr, Bool.not_true,
    Bool.false_and, Bool.false_eq_true, if_false, hcv, hv, Bool.and_self, if_true]

/-- C1: on every launch-mode run that acquired a browser, on every exit path
— normal completion or a caught and reported error — cleanup runs: a started
video recording is finalized (while the page handle is still bound) right
before the browser is closed, the browser is closed, and the `Browser
closed.` notification is the last emitted item of the progress sequence. -/
theorem launch_cleanup_last (query : String) (opts : OpenCommandOptions) (w : World)
    (u : String)
    (hpf : w.preflightErr = none) (hu : opts.url = some u) (hne : u ≠ "")
    (hconn : connectPort opts = none) (hl : w.launchErr = none) :
    (∃ pre,
      OpenCommand.execute query opts w =
        pre ++
        (if opts.video then
          Event.stopVideo w.videoDir ::
            (match w.videoMsg with | some m => [Event.yield m] | none => [])
        else []) ++ [Event.closeBrowser, Event.yield "Browser closed.\n"]) ∧
    (OpenCommand.executeFull query opts w).2.page.isSome = true ∧
    (emitted (OpenCommand.execute query opts w)).getLast? = some "Browser closed.\n" := by
  have hval : ((connectPort opts).isSome && opts.video) = false := by
    simp [hconn]
  have hrun := executeFull_run query opts w u hpf hu hne hval
  have hconn2 : connectPort (applyDefaults opts) = none := by
    rw [connectPort_applyDefaults]; exact hconn
  have hacq := acquire_launch (applyDefaults opts) w hconn2 hl
  have hir := innerRun_acquired u (applyDefaults opts) w _ _ "about:blank" hacq rfl
  have hfin : finallyEvents (applyDefaults opts) (innerRun u (applyDefaults opts) w).2.1 w =
      [Event.timersCleared] ++
      (if opts.video then
        Event.stopVideo w.videoDir ::
          (match w.videoMsg with | some m => [Event.yield m] | none => [])
      else []) ++ [Event.closeBrowser, Event.yield "Browser closed.\n"] := by
    rw [hir]
    simp only [finallyEvents, setupVideoRecordingPath, applyDefaults_video, hconn2,
      Option.isNone_none, Bool.and_true, if_true]
    by_cases hv : opts.video <;> simp [hv]
  have hexec : OpenCommand.execute query opts w =
      ((match (innerRun u (applyDefaults opts) w).2.2 with
        | some e => (innerRun u (applyDefaults opts) w).1 ++
            [Event.timersCleared, Event.yield ("Browser command error: " ++ e)]
        | none => (innerRun u (applyDefaults opts) w).1) ++ [Event.timersCleared]) ++
      (if opts.video then
        Event.stopVideo w.videoDir ::
          (match w.videoMsg with | some m => [Event.yield m] | none => [])
      else []) ++ [Event.closeBrowser, Event.yield "Browser closed.\n"] := by
    show (OpenCommand.executeFull query opts w).1 = _
    rw [hrun]
    simp only [hfin]
    simp [List.append_assoc]
  refine ⟨⟨_, hexec⟩, ?_, ?_⟩
  · rw [hrun]
    simp [hir]
  · rw [show OpenCommand.execute query opts w =
      (((match (innerRun u (applyDefaults opts) w).2.2 with
        | some e => (innerRun u (applyDefaults opts) w).1 ++
            [Event.timersCleared, Event.yield ("Browser command error: " ++ e)]
        | none => (innerRun u (applyDefaults opts) w).1) ++ [Event.timersCleared]) ++
      (if opts.video then
        Event.stopVideo w.videoDir ::
          (match w.videoMsg with | some m => [Event.yield m] | none => [])
      else []) ++ [Event.closeBrowser, Event.yield "Browser closed.\n"]) from hexec]
    simp only [emitted_append]
    rw [show emitted [Event.closeBrowser, Event.yield "Browser closed.\n"] =
      ["Browser closed.\n"] from rfl]
    exact List.getLast?_concat _

/-- The trace always begins with the inner body's events: the catch suffix and
the `finally` suffix only append. -/
theorem execute_extends_inner (query : String) (opts : OpenCommandOptions) (w : World)
    (u : String)
    (hpf : w.preflightErr = none) (hu : opts.url = some u) (hne : u ≠ "")
    (hval : ((connectPort opts).isSome && opts.video) = false) :
    ∃ tail, OpenCommand.execute query opts w =
      (innerRun u (applyDefaults opts) w).1 ++ tail := by
  have hrun := executeFull_run query opts w u hpf hu hne hval
  show ∃ tail, (OpenCommand.executeFull query opts w).1 = _
  rw [hrun]
  cases herr : (innerRun u (applyDefaults opts) w).2.2 with
  | none => exact ⟨finallyEvents (applyDefaults opts) (innerRun u (applyDefaults opts) w).2.1 w,
      by simp [herr, List.append_assoc]⟩
  | some e => exact ⟨[Event.timersCleared,
      Event.yield ("Browser command error: " ++ e)] ++
      finallyEvents (applyDefaults opts) (innerRun u (applyDefaults opts) w).2.1 w,
      by simp [herr, List.append_assoc]⟩

/-- The events of `afterAcquire` always start with the monitoring events followed
by the navigation events. -/
theorem afterAcquire_decomp (url : String) (opts : OpenCommandOptions) (w : World)
    (pu : String) :
    ∃ tail, (afterAcquire url opts w pu).1 =
      monitorEvents url opts ++ (navEvents url opts w pu).1 ++ tail := by
  rcases hn : navEvents url opts w pu with ⟨nev, pu2, nerr⟩
  cases nerr with
  | some e =>
    refine ⟨[], ?_⟩
    simp [afterAcquire, hn]
  | none =>
    rcases hh : htmlStep opts w with ⟨hev, herr⟩
    cases herr with
    | some e =>
      refine ⟨waitEvents opts w ++ Event.timersCleared :: diagEvents w ++ hev, ?_⟩
      simp [afterAcquire, hn, hh, List.append_assoc]
    | none =>
      refine ⟨waitEvents opts w ++ Event.timersCleared :: diagEvents w ++ hev ++
        (screenshotStep opts w).1, ?_⟩
      simp [afterAcquire, hn, hh, List.append_assoc]

/-- When neither sentinel/connect special case applies, navigation is a
`goto` of the given address announced by its progress message. -/
theorem navEvents_goto_decomp (url : String) (opts : OpenCommandOptions) (w : World)
    (pu : String)
    (h1 : ¬(url = "current" ∧ (connectPort opts).isSome = true))
    (h2 : ¬(url = "reload-current" ∧ (connectPort opts).isSome = true)) :
    ∃ tail, (navEvents url opts w pu).1 =
      [Event.yield ("Navigating to " ++ url ++ "..."),
        Event.goto url (effectiveTimeout opts w)] ++ tail := by
  have hb1 : (decide (url = "current") && (connectPort opts).isSome) = false := by
    by_cases hcp : (connectPort opts).isSome = true
    · have hnc : ¬ url = "current" := fun hc => h1 ⟨hc, hcp⟩
      simp [hnc]
    · have hf : (connectPort opts).isSome = false := by simpa using hcp
      simp [hf]
  have hb2 : (decide (url = "reload-current") && (connectPort opts).isSome) = false := by
    by_cases hcp : (connectPort opts).isSome = true
    · have hnc : ¬ url = "reload-current" := fun hc => h2 ⟨hc, hcp⟩
      simp [hnc]
    · have hf : (connectPort opts).isSome = false := by simpa using hcp
      simp [hf]
  unfold navEvents
  simp only [hb1, hb2, Bool.false_eq_true, if_false]
  cases hg : w.gotoErr with
  | some e => exact ⟨[], by simp⟩
  | none =>
    cases hn : w.networkidleErr with
    | some e =>
      refine ⟨[Event.yield "Page loaded, waiting for networkidle...",
        Event.waitNetworkidle (effectiveTimeout opts w),
        Event.yield "Timed out waiting for networkidle, continuing with page as it is"], ?_⟩
      simp
    | none =>
      refine ⟨[Event.yield "Page loaded, waiting for networkidle...",
        Event.waitNetworkidle (effectiveTimeout opts w)], ?_⟩
      simp

/-- C10: in launch mode the sentinels `current` and `reload-current` are not
special-cased: the sequencer announces and attempts a `goto` navigation to
the literal sentinel string under the effective timeout. -/
theorem launch_sentinel_goto (query : String) (opts : OpenCommandOptions) (w : World)
    (u : String)
    (hpf : w.preflightErr = none) (hu : opts.url = some u)
    (hsent : u = "current" ∨ u = "reload-current")
    (hconn : connectPort opts = none) (hl : w.launchErr = none) :
    ∃ pre post, OpenCommand.execute query opts w =
      pre ++ [Event.yield ("Navigating to " ++ u ++ "..."),
        Event.goto u (effectiveTimeout opts w)] ++ post := by
  have hne : u ≠ "" := by rcases hsent with h | h <;> subst h <;> decide
  have hval : ((connectPort opts).isSome && opts.video) = false := by simp [hconn]
  have hconn2 : connectPort (applyDefaults opts) = none := by
    rw [connectPort_applyDefaults]; exact hconn
  obtain ⟨t0, ht0⟩ := execute_extends_inner query opts w u hpf hu hne hval
  have hacq := acquire_launch (applyDefaults opts) w hconn2 hl
  have hir := innerRun_acquired u (applyDefaults opts) w _ _ "about:blank" hacq rfl
  obtain ⟨t1, ht1⟩ := afterAcquire_decomp u (applyDefaults opts) w "about:blank"
  obtain ⟨t2, ht2⟩ := navEvents_goto_decomp u (applyDefaults opts) w "about:blank"
    (by simp [hconn2]) (by simp [hconn2])
  rw [effectiveTimeout_applyDefaults] at ht2
  refine ⟨([Event.yield "Launching browser...",
      Event.launch ((applyDefaults opts).headless.getD (w.cfg.headless.getD true))] ++
      (if (applyDefaults opts).video = true then
        [Event.consoleLog ("video recording path: " ++ w.videoDir)] else []) ++
      [Event.newContext, Event.newPage] ++ launchViewportEvents (applyDefaults opts) w) ++
      monitorEvents u (applyDefaults opts), t2 ++ t1 ++ t0, ?_⟩
  rw [ht0]
  rw [show (innerRun u (applyDefaults opts) w).1 =
    ([Event.yield "Launching browser...",
      Event.launch ((applyDefaults opts).headless.getD (w.cfg.headless.getD true))] ++
      (if (applyDefaults opts).video = true then
        [Event.consoleLog ("video recording path: " ++ w.videoDir)] else []) ++
      [Event.newContext, Event.newPage] ++ launchViewportEvents (applyDefaults opts) w) ++
      (afterAcquire u (applyDefaults opts) w "about:blank").1 from by rw [hir]]
  rw [ht1, ht2]
  simp [List.append_assoc]

/-! ## Segment membership characterizations -/

theorem mem_monitorEvents {url : String} {opts : OpenCommandOptions} {e : Event}
    (he : e ∈ monitorEvents url opts) :
    (∃ m, e = Event.consoleLog m) ∨ e = Event.setupConsole ∨ e = Event.setupNetwork := by
  unfold monitorEvents at he
  rcases List.mem_append.mp he with h | h
  · split at h <;> simp at h
    · exact .inl ⟨_, h⟩
  · simp at h
    rcases h with h | h
    · exact .inr (.inl h)
    · exact .inr (.inr h)

theorem mem_waitEvents {opts : OpenCommandOptions} {w : World} {e : Event}
    (he : e ∈ waitEvents opts w) :
    (∃ m, e = Event.yield ("Wait error: " ++ m ++ "\n")) ∨
    (∃ m, e = Event.consoleLog m) ∨
    (∃ ms, e = Event.sleepTimer ms) ∨
    (∃ sel tmo, e = Event.waitForSelector sel tmo) := by
  unfold waitEvents at he
  split at he
  · split at he
    · simp at he
      exact .inl ⟨_, he⟩
    · simp at he
      rcases he with h | h
      · exact .inr (.inl ⟨_, h⟩)
      · exact .inr (.inr (.inl ⟨_, h⟩))
    · rcases List.mem_append.mp he with h | h
      · simp at h
        rcases h with h | h
        · exact .inr (.inl ⟨_, h⟩)
        · exact .inr (.inr (.inr ⟨_, _, h⟩))
      · split at h <;> simp at h
        exact .inl ⟨_, h⟩
  · simp at he

theorem mem_diagEvents {w : World} {e : Event} (he : e ∈ diagEvents w) :
    ∃ m, m ∈ w.outputMsgs ∧ e = Event.yield m := by
  unfold diagEvents at he
  rcases List.mem_map.mp he with ⟨m, hm, hme⟩
  exact ⟨m, hm, hme.symm⟩

theorem mem_htmlStep {opts : OpenCommandOptions} {w : World} {e : Event}
    (he : e ∈ (htmlStep opts w).1) :
    e = Event.getContent ∨ e = Event.yield "\n--- Page HTML Content ---\n\n" ∨
    e = Event.yield w.htmlContent ∨ e = Event.yield "\n--- End of HTML Content ---\n" := by
  unfold htmlStep at he
  split at he
  · split at he <;> simp at he <;> tauto
  · simp at he

theorem mem_screenshotStep {opts : OpenCommandOptions} {w : World} {e : Event}
    (he : e ∈ (screenshotStep opts w).1) :
    e = Event.captureScreenshot ∨
    ∃ p, e = Event.yield ("Screenshot saved to " ++ p ++ "\n") := by
  unfold screenshotStep at he
  split at he
  · simp at he
    exact .inl he
  · rcases List.mem_append.mp he with h | h
    · simp at h
      exact .inl h
    · split at h <;> simp at h
      exact .inr ⟨_, h⟩

theorem mem_connectViewportEvents {opts : OpenCommandOptions} {e : Event}
    (he : e ∈ connectViewportEvents opts) : ∃ a b, e = Event.setViewport a b := by
  unfold connectViewportEvents at he
  split at he
  · split at he <;> simp at he
    exact ⟨_, _, he⟩
  · simp at he

theorem mem_selectConnectPage {w : World} {e : Event}
    (he : e ∈ (selectConnectPage w).1) :
    e = Event.newPage ∨ e = Event.yield "Using existing page..." := by
  unfold selectConnectPage at he
  split at he <;> simp at he <;> tauto

/-! ## String inequality helpers -/

theorem append2_ne_of_length (p e m : String)
    (h : m.data.length < p.data.length) : p ++ e ≠ m := by
  intro heq
  have h2 := congrArg (fun s => s.data.length) heq
  simp only [String.data_append, List.length_append] at h2
  omega

theorem append3_ne_of_length (p e q m : String)
    (h : m.data.length < p.data.length) : p ++ e ++ q ≠ m := by
  intro heq
  have h2 := congrArg (fun s => s.data.length) heq
  simp only [String.data_append, List.length_append] at h2
  omega

theorem wait_error_ne_browser_closed (e : String) :
    "Wait error: " ++ e ++ "\n" ≠ "Browser closed.\n" := by
  intro h
  have h2 := congrArg String.data h
  rw [show ("Wait error: " : String) = "W" ++ "ait error: " from rfl] at h2
  rw [show ("Browser closed.\n" : String) = "B" ++ "rowser closed.\n" from rfl] at h2
  simp [String.data_append, show ("W" : String).data = ['W'] from rfl,
    show ("B" : String).data = ['B'] from rfl] at h2

theorem mem_navEvents {url : String} {opts : OpenCommandOptions} {w : World} {pu : String}
    {e : Event} (he : e ∈ (navEvents url opts w pu).1) :
    (∃ m, e = Event.yield m) ∨ (∃ u t, e = Event.goto u t) ∨
    (∃ t, e = Event.reload t) ∨ (∃ t, e = Event.waitNetworkidle t) := by
  unfold navEvents at he
  split at he
  · simp at he
    exact .inl ⟨_, he⟩
  · split at he
    · simp at he
      rcases he with h | h
      · exact .inl ⟨_, h⟩
      · exact .inr (.inr (.inl ⟨_, h⟩))
    · rcases hg : w.gotoErr with _ | e2
      · rw [hg] at he
        rcases hn : w.networkidleErr with _ | e3
        · rw [hn] at he
          simp at he
          rcases he with h | h | h | h
          · exact .inl ⟨_, h⟩
          · exact .inr (.inl ⟨_, _, h⟩)
          · exact .inl ⟨_, h⟩
          · exact .inr (.inr (.inr ⟨_, h⟩))
        · rw [hn] at he
          simp at he
          rcases he with h | h | h | h | h
          · exact .inl ⟨_, h⟩
          · exact .inr (.inl ⟨_, _, h⟩)
          · exact .inl ⟨_, h⟩
          · exact .inr (.inr (.inr ⟨_, h⟩))
          · exact .inl ⟨_, h⟩
      · rw [hg] at he
        simp at he
        rcases he with h | h
        · exact .inl ⟨_, h⟩
        · exact .inr (.inl ⟨_, _, h⟩)

theorem mem_launchViewportEvents {opts : OpenCommandOptions} {w : World} {e : Event}
    (he : e ∈ launchViewportEvents opts w) :
    (∃ a b, e = Event.setViewport a b) ∨ (∃ m, e = Event.yield m) := by
  unfold launchViewportEvents at he
  split at he
  · split at he <;> simp at he
    · exact .inl ⟨_, _, he⟩
    · exact .inr ⟨_, he⟩
  · split at he
    · split at he <;> simp at he
      exact .inl ⟨_, _, he⟩
    · simp at he

theorem mem_acquire {opts : OpenCommandOptions} {w : World} {e : Event}
    (he : e ∈ (acquire opts w).1) :
    (∃ m, e = Event.yield ("Connecting to existing Chrome instance on port " ++ m ++ "...")) ∨
    (∃ p, e = Event.connectCDP p) ∨ e = Event.newContext ∨
    e ∈ (selectConnectPage w).1 ∨ (∃ o, e ∈ connectViewportEvents o) ∨
    e = Event.yield "Launching browser..." ∨ (∃ b, e = Event.launch b) ∨
    (∃ m, e = Event.consoleLog m) ∨ e = Event.newPage ∨
    (∃ o, e ∈ launchViewportEvents o w) := by
  unfold acquire at he
  split at he
  · split at he
    · simp at he
      rcases he with h | h
      · exact .inl ⟨_, h⟩
      · exact .inr (.inl ⟨_, h⟩)
    · rcases List.mem_append.mp he with h | h
      · rcases List.mem_append.mp h with h2 | h2
        · rcases List.mem_append.mp h2 with h3 | h3
          · simp at h3
            rcases h3 with h4 | h4
            · exact .inl ⟨_, h4⟩
            · exact .inr (.inl ⟨_, h4⟩)
          · split at h3 <;> simp at h3
            exact .inr (.inr (.inl h3))
        · exact .inr (.inr (.inr (.inl h2)))
      · exact .inr (.inr (.inr (.inr (.inl ⟨_, h⟩))))
  · split at he
    · simp at he
      rcases he with h | h
      · exact .inr (.inr (.inr (.inr (.inr (.inl h)))))
      · exact .inr (.inr (.inr (.inr (.inr (.inr (.inl ⟨_, h⟩))))))
    · rcases List.mem_append.mp he with h | h
      · rcases List.mem_append.mp h with h2 | h2
        · rcases List.mem_append.mp h2 with h3 | h3
          · simp at h3
            rcases h3 with h4 | h4
            · exact .inr (.inr (.inr (.inr (.inr (.inl h4)))))
            · exact .inr (.inr (.inr (.inr (.inr (.inr (.inl ⟨_, h4⟩))))))
          · split at h3 <;> simp at h3
            exact .inr (.inr (.inr (.inr (.inr (.inr (.inr (.inl ⟨_, h3⟩)))))))
        · simp at h2
          rcases h2 with h3 | h3
          · exact .inr (.inr (.inl h3))
          · exact .inr (.inr (.inr (.inr (.inr (.inr (.inr (.inr (.inl h3))))))))
      · exact .inr (.inr (.inr (.inr (.inr (.inr (.inr (.inr (.inr ⟨_, h⟩))))))))

theorem mem_afterAcquire {url : String} {opts : OpenCommandOptions} {w : World}
    {pu : String} {e : Event} (he : e ∈ (afterAcquire url opts w pu).1) :
    e ∈ monitorEvents url opts ∨ e ∈ (navEvents url opts w pu).1 ∨
    e ∈ waitEvents opts w ∨ e = Event.timersCleared ∨ e ∈ diagEvents w ∨
    e ∈ (htmlStep opts w).1 ∨ e ∈ (screenshotStep opts w).1 := by
  rcases hn : navEvents url opts w pu with ⟨nev, pu2, nerr⟩
  cases nerr with
  | some e2 =>
    simp only [afterAcquire, hn] at he
    rcases List.mem_append.mp he with h | h
    · exact .inl h
    · exact .inr (.inl h)
  | none =>
    rcases hh : htmlStep opts w with ⟨hev, herr⟩
    cases herr with
    | some e2 =>
      simp only [afterAcquire, hn, hh] at he
      rcases List.mem_append.mp he with h | h
      · rcases List.mem_append.mp h with h | h
        · rcases List.mem_append.mp h with h | h
          · rcases List.mem_append.mp h with h | h
            · exact .inl h
            · exact .inr (.inl h)
          · exact .inr (.inr (.inl h))
        · rcases List.mem_cons.mp h with h | h
          · exact .inr (.inr (.inr (.inl h)))
          · exact .inr (.inr (.inr (.inr (.inl h))))
      · exact .inr (.inr (.inr (.inr (.inr (.inl h)))))
    | none =>
      simp only [afterAcquire, hn, hh] at he
      rcases List.mem_append.mp he with h | h
      · rcases List.mem_append.mp h with h | h
        · rcases List.mem_append.mp h with h | h
          · rcases List.mem_append.mp h with h | h
            · rcases List.mem_append.mp h with h | h
              · exact .inl h
              · exact .inr (.inl h)
            · exact .inr (.inr (.inl h))
          · rcases List.mem_cons.mp h with h | h
            · exact .inr (.inr (.inr (.inl h)))
            · exact .inr (.inr (.inr (.inr (.inl h))))
        · exact .inr (.inr (.inr (.inr (.inr (.inl h)))))
      · exact .inr (.inr (.inr (.inr (.inr (.inr h)))))

theorem mem_innerRun {url : String} {opts : OpenCommandOptions} {w : World} {e : Event}
    (he : e ∈ (innerRun url opts w).1) :
    e ∈ (acquire opts w).1 ∨ ∃ pu, e ∈ (afterAcquire url opts w pu).1 := by
  rcases ha : acquire opts w with ⟨aev, st, aerr⟩
  cases aerr with
  | some e2 =>
    simp only [innerRun, ha] at he
    exact .inl he
  | none =>
    cases hp : st.page with
    | none =>
      simp only [innerRun, ha, hp] at he
      exact .inl he
    | some pu =>
      simp only [innerRun, ha, hp] at he
      rcases List.mem_append.mp he with h | h
      · exact .inl h
      · exact .inr ⟨pu, h⟩

theorem mem_finallyEvents {opts : OpenCommandOptions} {st : RunState} {w : World} {e : Event}
    (he : e ∈ finallyEvents opts st w) :
    e = Event.timersCleared ∨ (∃ p, e = Event.stopVideo p) ∨
    (∃ m, w.videoMsg = some m ∧ e = Event.yield m) ∨
    e = Event.closeBrowser ∨ e = Event.yield "Browser closed.\n" ∨
    e = Event.closeConnection := by
  unfold finallyEvents at he
  rcases List.mem_append.mp he with h | h
  · rcases List.mem_append.mp h with h2 | h2
    · simp at h2
      exact .inl h2
    · split at h2
      · simp at h2
        rcases h2 with h3 | h3
        · exact .inr (.inl ⟨_, h3⟩)
        · split at h3
          · simp at h3
            exact .inr (.inr (.inl ⟨_, by tauto⟩))
          · simp at h3
      · simp at h2
  · split at h
    · simp at h
      rcases h with h2 | h2
      · exact .inr (.inr (.inr (.inl h2)))
      · exact .inr (.inr (.inr (.inr (.inl h2))))
    · split at h
      · split at h <;> simp at h
        exact .inr (.inr (.inr (.inr (.inr h))))
      · simp at h

theorem mem_emitted {t : List Event} {m : String} :
    m ∈ emitted t ↔ Event.yield m ∈ t := by
  simp only [emitted, List.mem_filterMap]
  constructor
  · rintro ⟨e, he, hm⟩
    match e, hm with
    | Event.yield m2, hm =>
      simp at hm
      subst hm
      exact he
  · intro h
    exact ⟨Event.yield m, h, rfl⟩

/-- A failed preflight check is reported as the single outer-catch message. -/
theorem executeFull_preflight (query : String) (opts : OpenCommandOptions) (w : World)
    (e : String) (h : w.preflightErr = some e) :
    OpenCommand.executeFull query opts w =
      ([Event.yield ("Playwright check error: " ++ e)], {}) := by
  simp [OpenCommand.executeFull, h]

/-- With no url and no query, only the usage message is emitted. -/
theorem executeFull_usage (query : String) (opts : OpenCommandOptions) (w : World)
    (hpf : w.preflightErr = none) (h1 : strTruthy opts.url = false) (h2 : query = "") :
    OpenCommand.executeFull query opts w =
      ([Event.yield "Please provide a URL to open. Usage: vibe-tools browser open <url> [options]"],
        {}) := by
  subst h2
  simp [OpenCommand.executeFull, hpf, h1]

/-- With no usable url, a non-empty query becomes the url. -/
theorem executeFull_query_fallback (query : String) (opts : OpenCommandOptions) (w : World)
    (h1 : strTruthy opts.url = false) (h2 : query ≠ "") :
    OpenCommand.executeFull query opts w =
      OpenCommand.executeFull query { opts with url := some query } w := by
  have h3 : strTruthy (some query) = true := strTruthy_some.mpr h2
  unfold OpenCommand.executeFull
  cases w.preflightErr
  · simp [h1, h2, h3]
  · rfl

/-- The connect+video conflict is thrown before the inner body and caught by
the outer guard. -/
theorem executeFull_validation (query : String) (opts : OpenCommandOptions) (w : World)
    (u : String)
    (hpf : w.preflightErr = none) (hu : opts.url = some u) (hne : u ≠ "")
    (hval : ((connectPort opts).isSome && opts.video) = true) :
    OpenCommand.executeFull query opts w =
      ([Event.yield ("Playwright check error: " ++
        "Cannot use --video when connecting to an existing Chrome instance (--connect-to). " ++
        "Video recording is only available when launching a new browser instance.")], {}) := by
  have htr : strTruthy (some u) = true := strTruthy_some.mpr hne
  simp only [OpenCommand.executeFull, hpf, hu, htr, Bool.not_true, Bool.false_and,
    Bool.false_eq_true, if_false, hval, if_true]

/-- No event of the inner body, catch suffix or `finally` suffix registers a
timer. -/
theorem no_reg_main (url : String) (od : OpenCommandOptions) (w : World) :
    Event.timerRegistered ∉
      ((match (innerRun url od w).2.2 with
        | some e => (innerRun url od w).1 ++
            [Event.timersCleared, Event.yield ("Browser command error: " ++ e)]
        | none => (innerRun url od w).1) ++
        finallyEvents od (innerRun url od w).2.1 w) := by
  intro he
  have hev : Event.timerRegistered ∉ (innerRun url od w).1 := by
    intro h3
    rcases mem_innerRun h3 with h | ⟨pu, h⟩
    · rcases mem_acquire h with ⟨m, h⟩ | ⟨p, h⟩ | h | h | ⟨o, h⟩ | h | ⟨b, h⟩ | ⟨m, h⟩ | h
        | ⟨o, h⟩
      · simp at h
      · simp at h
      · simp at h
      · rcases mem_selectConnectPage h with h | h <;> simp at h
      · rcases mem_connectViewportEvents h with ⟨a, b, h⟩
        simp at h
      · simp at h
      · simp at h
      · simp at h
      · simp at h
      · rcases mem_launchViewportEvents h with ⟨a, b, h⟩ | ⟨m, h⟩ <;> simp at h
    · rcases mem_afterAcquire h with h | h | h | h | h | h | h
      · rcases mem_monitorEvents h with ⟨m, h⟩ | h | h <;> simp at h
      · rcases mem_navEvents h with ⟨m, h⟩ | ⟨u2, t2, h⟩ | ⟨t2, h⟩ | ⟨t2, h⟩ <;> simp at h
      · rcases mem_waitEvents h with ⟨m, h⟩ | ⟨m, h⟩ | ⟨ms, h⟩ | ⟨sel, tmo, h⟩ <;> simp at h
      · simp at h
      · rcases mem_diagEvents h with ⟨m, hm, h⟩
        simp at h
      · rcases mem_htmlStep h with h | h | h | h <;> simp at h
      · rcases mem_screenshotStep h with h | ⟨p, h⟩ <;> simp at h
  rcases List.mem_append.mp he with h | h
  · cases herr : (innerRun url od w).2.2 with
    | some e2 =>
      rw [herr] at h
      rcases List.mem_append.mp h with h2 | h2
      · exact hev h2
      · simp at h2
    | none =>
      rw [herr] at h
      exact hev h
  · rcases mem_finallyEvents h with h | ⟨p, h⟩ | ⟨m, hm, h⟩ | h | h | h <;> simp at h

/-- On any run whose url gate passes, no timer is registered. -/
theorem no_reg_run (query : String) (opts : OpenCommandOptions) (w : World) (u : String)
    (hpf : w.preflightErr = none) (hu : opts.url = some u) (hne : u ≠ "") :
    Event.timerRegistered ∉ OpenCommand.execute query opts w := by
  intro he
  unfold OpenCommand.execute at he
  by_cases hval : ((connectPort opts).isSome && opts.video) = true
  · rw [executeFull_validation query opts w u hpf hu hne hval] at he
    simp at he
  · rw [executeFull_run query opts w u hpf hu hne (by simpa using hval)] at he
    exact no_reg_main _ _ w he

/-- The wait timer is awaited inline: no event ever registers a timer in the
`timeouts` array, on any input and any exit path. -/
theorem no_timerRegistered (query : String) (opts : OpenCommandOptions) (w : World) :
    Event.timerRegistered ∉ OpenCommand.execute query opts w := by
  rcases hpf : w.preflightErr with _ | e0
  · have hfall : strTruthy opts.url = false → query ≠ "" →
        Event.timerRegistered ∉ OpenCommand.execute query opts w := by
      intro h1 h2 he
      unfold OpenCommand.execute at he
      rw [executeFull_query_fallback query opts w h1 h2] at he
      exact no_reg_run query { opts with url := some query } w query hpf rfl h2 he
    rcases hq : opts.url with _ | u
    · by_cases hqq : query = ""
      · intro he
        unfold OpenCommand.execute at he
        rw [executeFull_usage query opts w hpf (by simp [strTruthy, hq]) hqq] at he
        simp at he
      · exact hfall (by simp [strTruthy, hq]) hqq
    · by_cases hu0 : u = ""
      · subst hu0
        by_cases hqq : query = ""
        · intro he
          unfold OpenCommand.execute at he
          rw [executeFull_usage query opts w hpf (by simp [strTruthy, hq]) hqq] at he
          simp at he
        · exact hfall (by simp [strTruthy, hq]) hqq
      · exact no_reg_run query opts w u hpf hq hu0
  · intro he
    unfold OpenCommand.execute at he
    rw [executeFull_preflight query opts w e0 hpf] at he
    simp at he

theorem pendingTimers_zero (t : List Event) (h : Event.timerRegistered ∉ t) :
    pendingTimers t = 0 := by
  induction t with
  | nil => rfl
  | cons e t ih =>
    have he : e ≠ Event.timerRegistered := fun hh => h (hh ▸ List.mem_cons_self e t)
    have ht : Event.timerRegistered ∉ t := fun hh => h (List.mem_cons_of_mem e hh)
    cases e <;> simp_all [pendingTimers, List.foldl_cons]

/-- C3 (amended): the pending-timer set is never added to — the suspension's
timer is awaited inline and never registered — so the set is empty at every
point of every run, in particular at the end of every exit path. -/
theorem timer_set_never_populated (query : String) (opts : OpenCommandOptions) (w : World) :
    Event.timerRegistered ∉ OpenCommand.execute query opts w ∧
    ∀ pre suf, OpenCommand.execute query opts w = pre ++ suf → pendingTimers pre = 0 := by
  refine ⟨no_timerRegistered query opts w, ?_⟩
  intro pre suf h
  refine pendingTimers_zero pre ?_
  intro hmem
  exact no_timerRegistered query opts w (by rw [h]; exact List.mem_append_left suf hmem)

theorem timer_set_never_populated_witness :
    pendingTimers (OpenCommand.execute "" { url := some "http://x", wait := some "time:5ms" } {}) = 0 :=
  (timer_set_never_populated "" { url := some "http://x", wait := some "time:5ms" } {}).2
    _ [] (List.append_nil _).symm

/-- C3 counterexample: a run with wait `time:5ms` suspends on its timer
(`sleepTimer 5`) but never registers it in the pending-timer set, which stays
empty — contradicting the claim that the suspension's timer is registered in
the set. -/
theorem timer_registration_cex :
    Event.sleepTimer 5 ∈
      OpenCommand.execute "" { url := some "http://x", wait := some "time:5ms" } {} ∧
    Event.timerRegistered ∉
      OpenCommand.execute "" { url := some "http://x", wait := some "time:5ms" } {} ∧
    pendingTimers
      (OpenCommand.execute "" { url := some "http://x", wait := some "time:5ms" } {}) = 0 := by
  refine ⟨by decide, by decide, by decide⟩

/-- C5 counterexample: connecting when every existing page is
browser-internal (`chrome://newtab`): no new page is created — the last
existing internal page is reused — contradicting the claim that a new page is
created when all pages use the internal scheme. -/
theorem connect_page_selection_cex :
    (∀ u ∈ ({ pageUrls := ["chrome://newtab"] } : World).pageUrls,
      startsWithS "chrome://" u = true) ∧
    Event.newPage ∉
      OpenCommand.execute "" { url := some "current", connectTo := some 9222 }
        { pageUrls := ["chrome://newtab"] } ∧
    (OpenCommand.executeFull "" { url := some "current", connectTo := some 9222 }
        { pageUrls := ["chrome://newtab"] }).2.page = some "chrome://newtab" := by
  refine ⟨by decide, by decide, by decide⟩

/-- C5 (amended): in connect mode the session page is the first existing
page not using the `chrome://` scheme; if all existing pages are internal the
last existing page is reused; only when no pages exist is a new page created
(at `about:blank`). -/
theorem connect_page_selection (opts : OpenCommandOptions) (w : World) (port : Nat)
    (hport : connectPort opts = some port) (hcn : w.connectErr = none) :
    (acquire opts w).2.1.page = some (selectConnectPage w).2 ∧
    ((if w.hasContext then w.pageUrls else []) = [] →
      (selectConnectPage w).2 = "about:blank" ∧ Event.newPage ∈ (acquire opts w).1) ∧
    (∀ p ps, (if w.hasContext then w.pageUrls else []) = p :: ps →
      Event.newPage ∉ (acquire opts w).1 ∧
      Event.yield "Using existing page..." ∈ (acquire opts w).1 ∧
      ((∃ v, (p :: ps).find? (fun x => !(startsWithS "chrome://" x)) = some v ∧
          (selectConnectPage w).2 = v) ∨
        ((p :: ps).find? (fun x => !(startsWithS "chrome://" x)) = none ∧
          (selectConnectPage w).2 = (p :: ps).getLast (List.cons_ne_nil p ps)))) := by
  have hacq := acquire_connect opts w port hport hcn
  refine ⟨by rw [hacq], ?_, ?_⟩
  · intro h0
    constructor
    · simp [selectConnectPage, h0]
    · rw [hacq]
      have : (selectConnectPage w).1 = [Event.newPage] := by simp [selectConnectPage, h0]
      simp [this]
  · intro p ps hps
    have hsel : (selectConnectPage w).1 = [Event.yield "Using existing page..."] := by
      simp [selectConnectPage, hps]
    refine ⟨?_, ?_, ?_⟩
    · rw [hacq]
      intro hmem
      simp only [List.mem_append] at hmem
      rcases hmem with ((h | h) | h) | h
      · simp at h
      · split at h <;> simp at h
      · rw [hsel] at h
        simp at h
      · rcases mem_connectViewportEvents h with ⟨a, b, h⟩
        simp at h
    · rw [hacq]
      rw [hsel]
      simp
    · rcases hf : (p :: ps).find? (fun x => !(startsWithS "chrome://" x)) with _ | v
      · refine .inr ⟨rfl, ?_⟩
        simp [selectConnectPage, hps, hf]
      · refine .inl ⟨v, rfl, ?_⟩
        simp [selectConnectPage, hps, hf]

theorem getLast?_append_pair (l : List Event) (a b : Event) :
    (l ++ [a, b]).getLast? = some b := by
  rw [show ([a, b] : List Event) = [a] ++ [b] from rfl, ← List.append_assoc]
  exact List.getLast?_concat _

/-- C2: a connect-mode run with target `current` performs no navigation (no
`goto` or `reload`; the page keeps the address of the selected page), emits
the connection message first and later `Using current page at <url>...`, and
cleanup releases only the connection handle: no `Browser closed.` message, no
browser/context/page teardown, and the final event is the connection close.
(The external diagnostics text is assumed not to contain the literal cleanup
message.) -/
theorem connect_current_connection_only (query : String) (opts : OpenCommandOptions)
    (w : World) (port : Nat)
    (hpf : w.preflightErr = none) (hu : opts.url = some "current")
    (hport : connectPort opts = some port) (hvid : opts.video = false)
    (hcn : w.connectErr = none)
    (hdg : "Browser closed.\n" ∉ w.outputMsgs)
    (hhtml : w.htmlContent ≠ "Browser closed.\n") :
    ∃ rest,
      OpenCommand.execute query opts w =
        Event.yield ("Connecting to existing Chrome instance on port " ++
          toString port ++ "...") :: rest ∧
      Event.yield ("Using current page at " ++ (selectConnectPage w).2 ++ "...") ∈ rest ∧
      (OpenCommand.executeFull query opts w).2.page = some (selectConnectPage w).2 ∧
      (∀ u tmo, Event.goto u tmo ∉ OpenCommand.execute query opts w) ∧
      (∀ tmo, Event.reload tmo ∉ OpenCommand.execute query opts w) ∧
      Event.closeBrowser ∉ OpenCommand.execute query opts w ∧
      Event.closeContext ∉ OpenCommand.execute query opts w ∧
      Event.closePage ∉ OpenCommand.execute query opts w ∧
      "Browser closed.\n" ∉ emitted (OpenCommand.execute query opts w) ∧
      (OpenCommand.execute query opts w).getLast? = some Event.closeConnection := by
  have hval : ((connectPort opts).isSome && opts.video) = false := by simp [hvid]
  have hrun := executeFull_run query opts w "current" hpf hu (by decide) hval
  set od := applyDefaults opts with hod
  set pu := (selectConnectPage w).2 with hpu
  have hport2 : connectPort od = some port := by
    rw [hod, connectPort_applyDefaults]; exact hport
  have hacq := acquire_connect od w port hport2 hcn
  have hir := innerRun_acquired "current" od w _ _ pu hacq rfl
  have hnav : navEvents "current" od w pu =
      ([Event.yield ("Using current page at " ++ pu ++ "...")], pu, none) := by
    simp [navEvents, hport2]
  have hpage : (afterAcquire "current" od w pu).2.1 = pu := by
    rcases hh : htmlStep od w with ⟨hev, herr⟩
    cases herr <;> simp [afterAcquire, hnav, hh]
  have hst : (innerRun "current" od w).2.1 =
      { browser := true, page := some pu, videoPath := none } := by
    rw [hir, hpage]
  have hfin : finallyEvents od (innerRun "current" od w).2.1 w =
      [Event.timersCleared, Event.closeConnection] := by
    rw [hst]
    simp [finallyEvents, hport2]
  have hexec0 : OpenCommand.execute query opts w = (OpenCommand.executeFull query opts w).1 :=
    rfl
  obtain ⟨ct, hct, hctmem⟩ : ∃ ct,
      (match (innerRun "current" od w).2.2 with
        | some e => (innerRun "current" od w).1 ++
            [Event.timersCleared, Event.yield ("Browser command error: " ++ e)]
        | none => (innerRun "current" od w).1) = (innerRun "current" od w).1 ++ ct ∧
      ∀ e ∈ ct, e = Event.timersCleared ∨
        ∃ m, e = Event.yield ("Browser command error: " ++ m) := by
    cases herr : (innerRun "current" od w).2.2 with
    | none => exact ⟨[], by simp, by simp⟩
    | some e2 =>
      refine ⟨[Event.timersCleared, Event.yield ("Browser command error: " ++ e2)], by simp, ?_⟩
      intro e he
      simp at he
      rcases he with h | h
      · exact .inl h
      · exact .inr ⟨e2, h⟩
  have hexec : OpenCommand.execute query opts w =
      ([Event.yield ("Connecting to existing Chrome instance on port " ++
          toString port ++ "..."), Event.connectCDP port] ++
        (if w.hasContext then [] else [Event.newContext]) ++
        (selectConnectPage w).1 ++ connectViewportEvents od ++
        (afterAcquire "current" od w pu).1 ++ ct) ++
      [Event.timersCleared, Event.closeConnection] := by
    rw [hexec0, hrun]
    show (_ ++ _ : List Event) = _
    rw [hct, hfin]
    rw [show (innerRun "current" od w).1 =
      ([Event.yield ("Connecting to existing Chrome instance on port " ++
          toString port ++ "..."), Event.connectCDP port] ++
        (if w.hasContext then [] else [Event.newContext]) ++
        (selectConnectPage w).1 ++ connectViewportEvents od) ++
      (afterAcquire "current" od w pu).1 from by rw [hir]]
  have husing : Event.yield ("Using current page at " ++ pu ++ "...") ∈
      (afterAcquire "current" od w pu).1 := by
    obtain ⟨at1, hat⟩ := afterAcquire_decomp "current" od w pu
    rw [hat, hnav]
    simp
  -- membership characterization of the whole trace
  have hmem : ∀ e ∈ OpenCommand.execute query opts w,
      e = Event.yield ("Connecting to existing Chrome instance on port " ++
        toString port ++ "...") ∨
      e = Event.connectCDP port ∨ e = Event.newContext ∨
      e ∈ (selectConnectPage w).1 ∨ e ∈ connectViewportEvents od ∨
      e ∈ monitorEvents "current" od ∨
      e = Event.yield ("Using current page at " ++ pu ++ "...") ∨
      e ∈ waitEvents od w ∨ e = Event.timersCleared ∨ e ∈ diagEvents w ∨
      e ∈ (htmlStep od w).1 ∨ e ∈ (screenshotStep od w).1 ∨
      (∃ m, e = Event.yield ("Browser command error: " ++ m)) ∨
      e = Event.closeConnection := by
    intro e he
    rw [hexec] at he
    rcases List.mem_append.mp he with h | h
    · rcases List.mem_append.mp h with h | h
      · rcases List.mem_append.mp h with h | h
        · rcases List.mem_append.mp h with h | h
          · rcases List.mem_append.mp h with h | h
            · simp at h
              rcases h with h | h | ⟨hw, h⟩
              · exact .inl h
              · exact .inr (.inl h)
              · exact .inr (.inr (.inl h))
            · exact .inr (.inr (.inr (.inl h)))
          · exact .inr (.inr (.inr (.inr (.inl h))))
        · rcases mem_afterAcquire h with h2 | h2 | h2 | h2 | h2 | h2 | h2
          · exact .inr (.inr (.inr (.inr (.inr (.inl h2)))))
          · rw [hnav] at h2
            simp at h2
            exact .inr (.inr (.inr (.inr (.inr (.inr (.inl h2))))))
          · exact .inr (.inr (.inr (.inr (.inr (.inr (.inr (.inl h2)))))))
          · exact .inr (.inr (.inr (.inr (.inr (.inr (.inr (.inr (.inl h2))))))))
          · exact .inr (.inr (.inr (.inr (.inr (.inr (.inr (.inr (.inr (.inl h2)))))))))
          · exact .inr (.inr (.inr (.inr (.inr (.inr (.inr (.inr (.inr (.inr (.inl h2))))))))))
          · exact .inr (.inr (.inr (.inr (.inr (.inr (.inr (.inr (.inr (.inr (.inr (.inl h2)))))))))))
      · rcases hctmem e h with h2 | h2
        · exact .inr (.inr (.inr (.inr (.inr (.inr (.inr (.inr (.inl h2))))))))
        · exact .inr (.inr (.inr (.inr (.inr (.inr (.inr (.inr (.inr (.inr (.inr (.inr (.inl h2))))))))))))
    · simp at h
      rcases h with h | h
      · exact .inr (.inr (.inr (.inr (.inr (.inr (.inr (.inr (.inl h))))))))
      · exact .inr (.inr (.inr (.inr (.inr (.inr (.inr (.inr (.inr (.inr (.inr (.inr (.inr h))))))))))))
  refine ⟨(Event.connectCDP port ::
      ((if w.hasContext then [] else [Event.newContext]) ++
        (selectConnectPage w).1 ++ connectViewportEvents od ++
        (afterAcquire "current" od w pu).1 ++ ct)) ++
      [Event.timersCleared, Event.closeConnection], ?_, ?_, ?_, ?_, ?_, ?_, ?_, ?_, ?_, ?_⟩
  · rw [hexec]
    simp [List.append_assoc]
  · simp only [List.mem_append, List.mem_cons]
    tauto
  · rw [hrun]
    rw [hst]
  · intro u tmo hin
    rcases hmem _ hin with h | h | h | h | h | h | h | h | h | h | h | h | ⟨m, h⟩ | h <;>
      first
        | simp at h
        | (rcases mem_selectConnectPage h with h | h <;> simp at h)
        | (rcases mem_connectViewportEvents h with ⟨a, b, h⟩ <;> simp at h)
        | (rcases mem_monitorEvents h with ⟨m, h⟩ | h | h <;> simp at h)
        | (rcases mem_waitEvents h with ⟨m, h⟩ | ⟨m, h⟩ | ⟨ms, h⟩ | ⟨sel, tm2, h⟩ <;> simp at h)
        | (rcases mem_diagEvents h with ⟨m, hm, h⟩ <;> simp at h)
        | (rcases mem_htmlStep h with h | h | h | h <;> simp at h)
        | (rcases mem_screenshotStep h with h | ⟨p, h⟩ <;> simp at h)
  · intro tmo hin
    rcases hmem _ hin with h | h | h | h | h | h | h | h | h | h | h | h | ⟨m, h⟩ | h <;>
      first
        | simp at h
        | (rcases mem_selectConnectPage h with h | h <;> simp at h)
        | (rcases mem_connectViewportEvents h with ⟨a, b, h⟩ <;> simp at h)
        | (rcases mem_monitorEvents h with ⟨m, h⟩ | h | h <;> simp at h)
        | (rcases mem_waitEvents h with ⟨m, h⟩ | ⟨m, h⟩ | ⟨ms, h⟩ | ⟨sel, tm2, h⟩ <;> simp at h)
        | (rcases mem_diagEvents h with ⟨m, hm, h⟩ <;> simp at h)
        | (rcases mem_htmlStep h with h | h | h | h <;> simp at h)
        | (rcases mem_screenshotStep h with h | ⟨p, h⟩ <;> simp at h)
  · intro hin
    rcases hmem _ hin with h | h | h | h | h | h | h | h | h | h | h | h | ⟨m, h⟩ | h <;>
      first
        | simp at h
        | (rcases mem_selectConnectPage h with h | h <;> simp at h)
        | (rcases mem_connectViewportEvents h with ⟨a, b, h⟩ <;> simp at h)
        | (rcases mem_monitorEvents h with ⟨m, h⟩ | h | h <;> simp at h)
        | (rcases mem_waitEvents h with ⟨m, h⟩ | ⟨m, h⟩ | ⟨ms, h⟩ | ⟨sel, tm2, h⟩ <;> simp at h)
        | (rcases mem_diagEvents h with ⟨m, hm, h⟩ <;> simp at h)
        | (rcases mem_htmlStep h with h | h | h | h <;> simp at h)
        | (rcases mem_screenshotStep h with h | ⟨p, h⟩ <;> simp at h)
  · intro hin
    rcases hmem _ hin with h | h | h | h | h | h | h | h | h | h | h | h | ⟨m, h⟩ | h <;>
      first
        | simp at h
        | (rcases mem_selectConnectPage h with h | h <;> simp at h)
        | (rcases mem_connectViewportEvents h with ⟨a, b, h⟩ <;> simp at h)
        | (rcases mem_monitorEvents h with ⟨m, h⟩ | h | h <;> simp at h)
        | (rcases mem_waitEvents h with ⟨m, h⟩ | ⟨m, h⟩ | ⟨ms, h⟩ | ⟨sel, tm2, h⟩ <;> simp at h)
        | (rcases mem_diagEvents h with ⟨m, hm, h⟩ <;> simp at h)
        | (rcases mem_htmlStep h with h | h | h | h <;> simp at h)
        | (rcases mem_screenshotStep h with h | ⟨p, h⟩ <;> simp at h)
  · intro hin
    rcases hmem _ hin with h | h | h | h | h | h | h | h | h | h | h | h | ⟨m, h⟩ | h <;>
      first
        | simp at h
        | (rcases mem_selectConnectPage h with h | h <;> simp at h)
        | (rcases mem_connectViewportEvents h with ⟨a, b, h⟩ <;> simp at h)
        | (rcases mem_monitorEvents h with ⟨m, h⟩ | h | h <;> simp at h)
        | (rcases mem_waitEvents h with ⟨m, h⟩ | ⟨m, h⟩ | ⟨ms, h⟩ | ⟨sel, tm2, h⟩ <;> simp at h)
        | (rcases mem_diagEvents h with ⟨m, hm, h⟩ <;> simp at h)
        | (rcases mem_htmlStep h with h | h | h | h <;> simp at h)
        | (rcases mem_screenshotStep h with h | ⟨p, h⟩ <;> simp at h)
  · intro hin
    rw [mem_emitted] at hin
    rcases hmem _ hin with h | h | h | h | h | h | h | h | h | h | h | h | ⟨m, h⟩ | h
    · simp only [Event.yield.injEq] at h
      exact append3_ne_of_length "Connecting to existing Chrome instance on port "
        (toString port) "..." "Browser closed.\n" (by decide) h.symm
    · simp at h
    · simp at h
    · rcases mem_selectConnectPage h with h | h
      · simp at h
      · simp only [Event.yield.injEq] at h
        exact absurd h.symm (by decide)
    · rcases mem_connectViewportEvents h with ⟨a, b, h⟩
      simp at h
    · rcases mem_monitorEvents h with ⟨m, h⟩ | h | h <;> simp at h
    · simp only [Event.yield.injEq] at h
      exact append3_ne_of_length "Using current page at " pu "..."
        "Browser closed.\n" (by decide) h.symm
    · rcases mem_waitEvents h with ⟨m, h⟩ | ⟨m, h⟩ | ⟨ms, h⟩ | ⟨sel, tm2, h⟩
      · simp only [Event.yield.injEq] at h
        exact wait_error_ne_browser_closed m h.symm
      · simp at h
      · simp at h
      · simp at h
    · simp at h
    · rcases mem_diagEvents h with ⟨m, hm, h⟩
      simp only [Event.yield.injEq] at h
      rw [← h] at hm
      exact hdg hm
    · rcases mem_htmlStep h with h | h | h | h
      · simp at h
      · simp only [Event.yield.injEq] at h
        exact absurd h.symm (by decide)
      · simp only [Event.yield.injEq] at h
        exact hhtml h.symm
      · simp only [Event.yield.injEq] at h
        exact absurd h.symm (by decide)
    · rcases mem_screenshotStep h with h | ⟨p, h⟩
      · simp at h
      · simp only [Event.yield.injEq] at h
        exact append3_ne_of_length "Screenshot saved to " p "\n"
          "Browser closed.\n" (by decide) h.symm
    · simp only [Event.yield.injEq] at h
      exact append2_ne_of_length "Browser command error: " m
        "Browser closed.\n" (by decide) h.symm
    · simp at h
  · rw [hexec]
    exact getLast?_append_pair _ _ _

theorem connect_cond_false (s u : String) (opts : OpenCommandOptions)
    (h : ¬(u = s ∧ (connectPort opts).isSome = true)) :
    (decide (u = s) && (connectPort opts).isSome) = false := by
  by_cases hcp : (connectPort opts).isSome = true
  · have hns : ¬ u = s := fun hc => h ⟨hc, hcp⟩
    simp [hns]
  · simp [show (connectPort opts).isSome = false by simpa using hcp]

theorem acquire_ok_shape (opts : OpenCommandOptions) (w : World) (h : acquireOk opts w) :
    ∃ aev pu vp, acquire opts w =
      (aev, { browser := true, page := some pu, videoPath := vp }, none) := by
  unfold acquireOk at h
  rcases hcp : connectPort opts with _ | port
  · rw [hcp] at h
    exact ⟨_, _, _, acquire_launch opts w hcp h⟩
  · rw [hcp] at h
    exact ⟨_, _, _, acquire_connect opts w port hcp h⟩

theorem htmlStep_ok (opts : OpenCommandOptions) (w : World) (hct : w.contentErr = none) :
    htmlStep opts w = ((if opts.html.getD false then
      [Event.getContent, Event.yield "\n--- Page HTML Content ---\n\n",
        Event.yield w.htmlContent, Event.yield "\n--- End of HTML Content ---\n"]
      else []), none) := by
  unfold htmlStep
  split <;> simp [hct]

theorem captureScreenshot_mem (opts : OpenCommandOptions) (w : World) :
    Event.captureScreenshot ∈ (screenshotStep opts w).1 := by
  unfold screenshotStep
  rcases w.screenshotErr <;> simp

/-- C7: when a goto-navigation reaches `load` but network quiescence times
out, the timeout is not fatal: the run emits the timeout message and is
otherwise identical to the run in which quiescence succeeds — the wait step,
diagnostics, html, screenshot and cleanup all still execute after it. -/
theorem quiescence_timeout_nonfatal (query : String) (opts : OpenCommandOptions)
    (w : World) (u e : String)
    (hpf : w.preflightErr = none) (hu : opts.url = some u) (hne : u ≠ "")
    (hval : ((connectPort opts).isSome && opts.video) = false)
    (hc1 : ¬(u = "current" ∧ (connectPort opts).isSome = true))
    (hc2 : ¬(u = "reload-current" ∧ (connectPort opts).isSome = true))
    (hacq : acquireOk opts w) (hg : w.gotoErr = none) (hct : w.contentErr = none) :
    ∃ pre post,
      OpenCommand.execute query opts { w with networkidleErr := some e } =
        pre ++ Event.yield "Timed out waiting for networkidle, continuing with page as it is"
          :: post ∧
      OpenCommand.execute query opts { w with networkidleErr := none } = pre ++ post ∧
      Event.timersCleared ∈ post ∧
      (∀ m ∈ w.outputMsgs, Event.yield m ∈ post) ∧
      Event.captureScreenshot ∈ post := by
  set od := applyDefaults opts with hod
  set wT : World := { w with networkidleErr := some e } with hwT
  set wN : World := { w with networkidleErr := none } with hwN
  have hb1 : (decide (u = "current") && (connectPort od).isSome) = false :=
    connect_cond_false "current" u od (by rw [hod, connectPort_applyDefaults]; exact hc1)
  have hb2 : (decide (u = "reload-current") && (connectPort od).isSome) = false :=
    connect_cond_false "reload-current" u od (by rw [hod, connectPort_applyDefaults]; exact hc2)
  have hrunT := executeFull_run query opts wT u
    (show wT.preflightErr = none from hpf) hu hne hval
  have hrunN := executeFull_run query opts wN u
    (show wN.preflightErr = none from hpf) hu hne hval
  obtain ⟨aev, pu, vp, hacq2⟩ := acquire_ok_shape od w (show acquireOk od w from hacq)
  have hacqT : acquire od wT = (aev, { browser := true, page := some pu, videoPath := vp },
      none) := (show acquire od wT = acquire od w from rfl).trans hacq2
  have hacqN : acquire od wN = (aev, { browser := true, page := some pu, videoPath := vp },
      none) := (show acquire od wN = acquire od w from rfl).trans hacq2
  have hirT := innerRun_acquired u od wT aev _ pu hacqT rfl
  have hirN := innerRun_acquired u od wN aev _ pu hacqN rfl
  have hnavT : navEvents u od wT pu =
      ([Event.yield ("Navigating to " ++ u ++ "..."),
        Event.goto u (effectiveTimeout opts w),
        Event.yield "Page loaded, waiting for networkidle...",
        Event.waitNetworkidle (effectiveTimeout opts w),
        Event.yield "Timed out waiting for networkidle, continuing with page as it is"],
        u, none) := by
    unfold navEvents
    rw [show wT.gotoErr = w.gotoErr from rfl, hg]
    simp only [hb1, hb2, Bool.false_eq_true, if_false]
    rfl
  have hnavN : navEvents u od wN pu =
      ([Event.yield ("Navigating to " ++ u ++ "..."),
        Event.goto u (effectiveTimeout opts w),
        Event.yield "Page loaded, waiting for networkidle...",
        Event.waitNetworkidle (effectiveTimeout opts w)],
        u, none) := by
    unfold navEvents
    rw [show wN.gotoErr = w.gotoErr from rfl, hg]
    simp only [hb1, hb2, Bool.false_eq_true, if_false]
    rfl
  have hhs : htmlStep od wT = ((if od.html.getD false then
      [Event.getContent, Event.yield "\n--- Page HTML Content ---\n\n",
        Event.yield w.htmlContent, Event.yield "\n--- End of HTML Content ---\n"]
      else []), none) :=
    (show htmlStep od wT = htmlStep od w from rfl).trans (htmlStep_ok od w hct)
  have hhsN : htmlStep od wN = ((if od.html.getD false then
      [Event.getContent, Event.yield "\n--- Page HTML Content ---\n\n",
        Event.yield w.htmlContent, Event.yield "\n--- End of HTML Content ---\n"]
      else []), none) :=
    (show htmlStep od wN = htmlStep od w from rfl).trans (htmlStep_ok od w hct)
  have haT : afterAcquire u od wT pu =
      (monitorEvents u od ++
        ([Event.yield ("Navigating to " ++ u ++ "..."),
          Event.goto u (effectiveTimeout opts w),
          Event.yield "Page loaded, waiting for networkidle...",
          Event.waitNetworkidle (effectiveTimeout opts w)] ++
        [Event.yield "Timed out waiting for networkidle, continuing with page as it is"]) ++
        (waitEvents od w ++ Event.timersCleared :: diagEvents w ++
          (if od.html.getD false then
            [Event.getContent, Event.yield "\n--- Page HTML Content ---\n\n",
              Event.yield w.htmlContent, Event.yield "\n--- End of HTML Content ---\n"]
            else []) ++ (screenshotStep od w).1),
        u, (screenshotStep od w).2) := by
    unfold afterAcquire
    rw [hnavT, hhs]
    rw [show waitEvents od wT = waitEvents od w from rfl,
      show diagEvents wT = diagEvents w from rfl,
      show screenshotStep od wT = screenshotStep od w from rfl]
    rcases hss : screenshotStep od w with ⟨sev, serr⟩
    simp [List.append_assoc]
  have haN : afterAcquire u od wN pu =
      (monitorEvents u od ++
        [Event.yield ("Navigating to " ++ u ++ "..."),
          Event.goto u (effectiveTimeout opts w),
          Event.yield "Page loaded, waiting for networkidle...",
          Event.waitNetworkidle (effectiveTimeout opts w)] ++
        (waitEvents od w ++ Event.timersCleared :: diagEvents w ++
          (if od.html.getD false then
            [Event.getContent, Event.yield "\n--- Page HTML Content ---\n\n",
              Event.yield w.htmlContent, Event.yield "\n--- End of HTML Content ---\n"]
            else []) ++ (screenshotStep od w).1),
        u, (screenshotStep od w).2) := by
    unfold afterAcquire
    rw [hnavN, hhsN]
    rw [show waitEvents od wN = waitEvents od w from rfl,
      show diagEvents wN = diagEvents w from rfl,
      show screenshotStep od wN = screenshotStep od w from rfl]
    rcases hss : screenshotStep od w with ⟨sev, serr⟩
    simp [List.append_assoc]
  obtain ⟨ct, hctm⟩ : ∃ ct, ∀ l : List Event,
      (match (screenshotStep od w).2 with
        | some e2 => l ++ [Event.timersCleared, Event.yield ("Browser command error: " ++ e2)]
        | none => l) = l ++ ct := by
    rcases hss : (screenshotStep od w).2 with _ | e2
    · exact ⟨[], fun l => by simp⟩
    · exact ⟨[Event.timersCleared, Event.yield ("Browser command error: " ++ e2)],
        fun l => by simp⟩
  -- final states agree
  have hstT : (innerRun u od wT).2.1 =
      { browser := true, page := some u, videoPath := vp } := by
    rw [hirT]
    rw [show (afterAcquire u od wT pu).2.1 = u from by rw [haT]]
  have hstN : (innerRun u od wN).2.1 =
      { browser := true, page := some u, videoPath := vp } := by
    rw [hirN]
    rw [show (afterAcquire u od wN pu).2.1 = u from by rw [haN]]
  have hfin : finallyEvents od (innerRun u od wT).2.1 wT =
      finallyEvents od (innerRun u od wN).2.1 wN := by
    rw [hstT, hstN]
    rfl
  -- errors agree
  have herrT : (innerRun u od wT).2.2 = (screenshotStep od w).2 := by
    rw [hirT]
    rw [show (afterAcquire u od wT pu).2.2 = (screenshotStep od w).2 from by rw [haT]]
  have herrN : (innerRun u od wN).2.2 = (screenshotStep od w).2 := by
    rw [hirN]
    rw [show (afterAcquire u od wN pu).2.2 = (screenshotStep od w).2 from by rw [haN]]
  refine ⟨aev ++ monitorEvents u od ++
      [Event.yield ("Navigating to " ++ u ++ "..."),
        Event.goto u (effectiveTimeout opts w),
        Event.yield "Page loaded, waiting for networkidle...",
        Event.waitNetworkidle (effectiveTimeout opts w)],
    (waitEvents od w ++ Event.timersCleared :: diagEvents w ++
      (if od.html.getD false then
        [Event.getContent, Event.yield "\n--- Page HTML Content ---\n\n",
          Event.yield w.htmlContent, Event.yield "\n--- End of HTML Content ---\n"]
        else []) ++ (screenshotStep od w).1) ++ ct ++
      finallyEvents od (innerRun u od wT).2.1 wT, ?_, ?_, ?_, ?_, ?_⟩
  · show (OpenCommand.executeFull query opts wT).1 = _
    rw [hrunT]
    show (match (innerRun u od wT).2.2 with
      | some e2 => (innerRun u od wT).1 ++
          [Event.timersCleared, Event.yield ("Browser command error: " ++ e2)]
      | none => (innerRun u od wT).1) ++ _ = _
    rw [herrT, hctm ((innerRun u od wT).1)]
    rw [show (innerRun u od wT).1 = aev ++ (afterAcquire u od wT pu).1 from by rw [hirT]]
    rw [haT]
    simp [List.append_assoc]
  · show (OpenCommand.executeFull query opts wN).1 = _
    rw [hrunN]
    show (match (innerRun u od wN).2.2 with
      | some e2 => (innerRun u od wN).1 ++
          [Event.timersCleared, Event.yield ("Browser command error: " ++ e2)]
      | none => (innerRun u od wN).1) ++ _ = _
    rw [herrN, hctm ((innerRun u od wN).1)]
    rw [show (innerRun u od wN).1 = aev ++ (afterAcquire u od wN pu).1 from by rw [hirN]]
    rw [haN, ← hfin]
    simp [List.append_assoc]
  · simp
  · intro m hm
    have hd : Event.yield m ∈ diagEvents w := List.mem_map_of_mem Event.yield hm
    simp only [List.mem_append, List.mem_cons]
    tauto
  · have := captureScreenshot_mem od w
    simp only [List.mem_append]
    tauto

theorem navEvents_ok (url : String) (opts : OpenCommandOptions) (w : World) (pu : String)
    (hg : w.gotoErr = none) (hr : w.reloadErr = none) :
    ∃ nev pu2, navEvents url opts w pu = (nev, pu2, none) := by
  unfold navEvents
  split
  · exact ⟨_, _, rfl⟩
  · split
    · exact ⟨_, _, by rw [hr]⟩
    · rw [hg]
      rcases w.networkidleErr with _ | e2
      · exact ⟨_, _, rfl⟩
      · exact ⟨_, _, rfl⟩

theorem waitEvents_fail (opts : OpenCommandOptions) (w : World) (ws em : String)
    (hw : opts.wait = some ws) (hws : ws ≠ "")
    (hfail : parseWaitParameter ws = Except.error em ∨
      (∃ sel, parseWaitParameter ws = Except.ok (.selector sel) ∧ w.selectorErr = some em)) :
    ∃ wpre, waitEvents opts w = wpre ++ [Event.yield ("Wait error: " ++ em ++ "\n")] := by
  have htr : strTruthy (some ws) = true := strTruthy_some.mpr hws
  unfold waitEvents
  rw [hw, htr, if_pos rfl]
  simp only [Option.getD_some]
  rcases hfail with hp | ⟨sel, hok, hsel⟩
  · rw [hp]
    exact ⟨[], by simp⟩
  · rw [hok, hsel]
    exact ⟨[Event.consoleLog ("Waiting for selector \"" ++ sel ++ "\"..."),
      Event.waitForSelector sel (effectiveTimeout opts w)], by simp⟩

/-- C8: a wait-directive failure — a malformed `time:` duration or the
selector never becoming visible — is reported as a `Wait error:` message but
does not abort the rest: diagnostics output, html capture (when enabled) and
the screenshot capture all still occur after it. -/
theorem wait_failure_nonfatal (query : String) (opts : OpenCommandOptions) (w : World)
    (u ws em : String)
    (hpf : w.preflightErr = none) (hu : opts.url = some u) (hne : u ≠ "")
    (hval : ((connectPort opts).isSome && opts.video) = false)
    (hacq : acquireOk opts w)
    (hg : w.gotoErr = none) (hr : w.reloadErr = none) (hct : w.contentErr = none)
    (hw : opts.wait = some ws) (hws : ws ≠ "")
    (hfail : parseWaitParameter ws = Except.error em ∨
      (∃ sel, parseWaitParameter ws = Except.ok (.selector sel) ∧ w.selectorErr = some em)) :
    ∃ pre post,
      OpenCommand.execute query opts w =
        pre ++ Event.yield ("Wait error: " ++ em ++ "\n") :: post ∧
      Event.timersCleared ∈ post ∧
      (∀ m ∈ w.outputMsgs, Event.yield m ∈ post) ∧
      (opts.html = some true → Event.getContent ∈ post ∧ Event.yield w.htmlContent ∈ post) ∧
      Event.captureScreenshot ∈ post := by
  set od := applyDefaults opts with hod
  have hrun := executeFull_run query opts w u hpf hu hne hval
  obtain ⟨aev, pu, vp, hacq2⟩ := acquire_ok_shape od w (show acquireOk od w from hacq)
  have hir := innerRun_acquired u od w aev _ pu hacq2 rfl
  obtain ⟨nev, pu2, hnav⟩ := navEvents_ok u od w pu hg hr
  obtain ⟨wpre, hwv⟩ := waitEvents_fail od w ws em
    (show od.wait = some ws from hw) hws hfail
  have hhs := htmlStep_ok od w hct
  have ha : afterAcquire u od w pu =
      (monitorEvents u od ++ nev ++
        ((wpre ++ [Event.yield ("Wait error: " ++ em ++ "\n")]) ++
          (Event.timersCleared :: diagEvents w ++
            (if od.html.getD false then
              [Event.getContent, Event.yield "\n--- Page HTML Content ---\n\n",
                Event.yield w.htmlContent, Event.yield "\n--- End of HTML Content ---\n"]
              else []) ++ (screenshotStep od w).1)),
        pu2, (screenshotStep od w).2) := by
    unfold afterAcquire
    rw [hnav, hhs, hwv]
    rcases hss : screenshotStep od w with ⟨sev, serr⟩
    simp [List.append_assoc]
  obtain ⟨ct, hctm⟩ : ∃ ct, ∀ l : List Event,
      (match (screenshotStep od w).2 with
        | some e2 => l ++ [Event.timersCleared, Event.yield ("Browser command error: " ++ e2)]
        | none => l) = l ++ ct := by
    rcases hss : (screenshotStep od w).2 with _ | e2
    · exact ⟨[], fun l => by simp⟩
    · exact ⟨[Event.timersCleared, Event.yield ("Browser command error: " ++ e2)],
        fun l => by simp⟩
  have herr : (innerRun u od w).2.2 = (screenshotStep od w).2 := by
    rw [hir]
    rw [show (afterAcquire u od w pu).2.2 = (screenshotStep od w).2 from by rw [ha]]
  refine ⟨aev ++ monitorEvents u od ++ nev ++ wpre,
    (Event.timersCleared :: diagEvents w ++
      (if od.html.getD false then
        [Event.getContent, Event.yield "\n--- Page HTML Content ---\n\n",
          Event.yield w.htmlContent, Event.yield "\n--- End of HTML Content ---\n"]
        else []) ++ (screenshotStep od w).1) ++ ct ++
      finallyEvents od (innerRun u od w).2.1 w, ?_, ?_, ?_, ?_, ?_⟩
  · show (OpenCommand.executeFull query opts w).1 = _
    rw [hrun]
    show (match (innerRun u od w).2.2 with
      | some e2 => (innerRun u od w).1 ++
          [Event.timersCleared, Event.yield ("Browser command error: " ++ e2)]
      | none => (innerRun u od w).1) ++ _ = _
    rw [herr, hctm ((innerRun u od w).1)]
    rw [show (innerRun u od w).1 = aev ++ (afterAcquire u od w pu).1 from by rw [hir]]
    rw [ha]
    simp [List.append_assoc]
  · simp
  · intro m hm
    have hd : Event.yield m ∈ diagEvents w := List.mem_map_of_mem Event.yield hm
    simp only [List.mem_append, List.mem_cons]
    tauto
  · intro hh
    have hh2 : od.html.getD false = true := by
      rw [hod, applyDefaults_html, hh]
      rfl
    rw [hh2]
    constructor
    · simp only [List.mem_append, List.mem_cons, if_true]
      simp
    · simp only [List.mem_append, List.mem_cons, if_true]
      simp
  · have := captureScreenshot_mem od w
    simp only [List.mem_append, List.mem_cons]
    tauto

/-- Closed instance of `connect_video_rejected`. -/
theorem connect_video_rejected_witness :
    OpenCommand.execute "" { url := some "http://x", connectTo := some 9222, video := true }
      {} =
      [Event.yield ("Playwright check error: " ++
        "Cannot use --video when connecting to an existing Chrome instance (--connect-to). " ++
        "Video recording is only available when launching a new browser instance.")] :=
  connect_video_rejected "" _ _ "http://x" rfl rfl (by decide) (by decide) rfl

/-- Closed instance of `launch_cleanup_last`: with video on and a goto error,
the last emitted message is still the close notification. -/
theorem launch_cleanup_last_witness :
    (emitted (OpenCommand.execute ""
      { url := some "https://example.com", video := true }
      { videoMsg := some "Video saved", gotoErr := some "net::ERR" })).getLast? =
      some "Browser closed.\n" :=
  (launch_cleanup_last "" { url := some "https://example.com", video := true }
    { videoMsg := some "Video saved", gotoErr := some "net::ERR" }
    "https://example.com" rfl rfl (by decide) rfl rfl).2.2

/-- Closed instance of `launch_sentinel_goto`: launch mode with url `current`
still attempts `goto "current"`. -/
theorem launch_sentinel_goto_witness :
    Event.goto "current" 30000 ∈
      OpenCommand.execute "" { url := some "current" } {} := by
  obtain ⟨pre, post, h⟩ := launch_sentinel_goto "" { url := some "current" } {} "current"
    rfl rfl (.inl rfl) rfl rfl
  rw [h]
  simp
  exact .inr (.inl rfl)

/-- Closed instance of `connect_page_selection`: with one internal and one
ordinary page, the ordinary page is selected. -/
theorem connect_page_selection_witness :
    (acquire { url := some "current", connectTo := some 9222 }
      { pageUrls := ["chrome://newtab", "https://a.com"] }).2.1.page =
      some "https://a.com" := by
  have h := connect_page_selection { url := some "current", connectTo := some 9222 }
    { pageUrls := ["chrome://newtab", "https://a.com"] } 9222 (by decide) rfl
  rw [h.1]
  decide

/-- Closed instance of `connect_current_connection_only`: the final event of
the connect+current run is the connection close. -/
theorem connect_current_connection_only_witness :
    (OpenCommand.execute "" { url := some "current", connectTo := some 9222 }
      { pageUrls := ["https://a.com"] }).getLast? = some Event.closeConnection := by
  obtain ⟨rest, h⟩ := connect_current_connection_only ""
    { url := some "current", connectTo := some 9222 }
    { pageUrls := ["https://a.com"] } 9222 rfl rfl (by decide) rfl rfl (by decide) (by decide)
  exact h.2.2.2.2.2.2.2.2.2

/-- Closed instance of `quiescence_timeout_nonfatal`: the timeout message is
emitted and the run continues. -/
theorem quiescence_timeout_nonfatal_witness :
    Event.yield "Timed out waiting for networkidle, continuing with page as it is" ∈
      OpenCommand.execute "" { url := some "http://x" }
        { ({} : World) with networkidleErr := some "timeout" } := by
  obtain ⟨pre, post, h1, h2, h3, h4, h5⟩ := quiescence_timeout_nonfatal ""
    { url := some "http://x" } {} "http://x" "timeout"
    rfl rfl (by decide) (by decide) (by decide) (by decide)
    (show ({} : World).launchErr = none from rfl) rfl rfl
  rw [h1]
  simp

/-- Closed instance of `wait_failure_nonfatal`: a malformed `time:` duration
is reported and the screenshot step still runs. -/
theorem wait_failure_nonfatal_witness :
    Event.captureScreenshot ∈
      OpenCommand.execute "" { url := some "http://x", wait := some "time:2x" } {} := by
  obtain ⟨pre, post, h1, h2, h3, h4, h5⟩ := wait_failure_nonfatal ""
    { url := some "http://x", wait := some "time:2x" } {} "http://x" "time:2x"
    ("Invalid time duration format: time:2x. " ++
      "Expected format: time:Xs, time:Xms, or time:Xm")
    rfl rfl (by decide) (by decide)
    (show ({} : World).launchErr = none from rfl) rfl rfl rfl rfl (by decide)
    (.inl (by rfl))
  rw [h1]
  simp
  exact .inr h5
